import Mathlib

/-!
# Verification of the faf-cli local project intelligence engine

Shallow embedding of the claim-relevant parts of
`src/engines/local-project-scanner.ts` and
`src/generators/faf-generator-championship.ts`:

* the per-file language classifier and its lookup tables,
* the recursive directory walker (`walkDirectory`),
* the language aggregation / percentage computation (`scanLanguages`),
* the README discovery order (`findReadme`) and the AI-enrichment read,
* the context-slot filling pipeline of `generateFafFromProject`,
* the type-aware slot scorer (categories, scaling, bonuses, final cap).

JavaScript numbers are modelled with `Nat` (byte counts, file counts) and
`Rat` (the floating-point score arithmetic, exact here); JavaScript string
truthiness (`if (x)` on a string) is modelled by `Option String` where
`some v` always stores a non-empty ("truthy") value, matching the source,
which only ever stores guarded, non-empty strings into the slot map.
-/

namespace FafCli

/-! ## Node `path.extname`, modelled for directory-entry basenames

`path.extname` returns the substring of the basename starting at its last
`'.'`; a name with no dot, or whose only dot is its leading character
(a hidden file such as `.bashrc`), has extension `""`.  `fs.readdir` never
yields the special entries `"."`/`".."`, so their (divergent) behaviour is
irrelevant to the scanner.  Crucially `extname "bundle.min.js" = ".js"`:
only the last dot-component is the extension. -/

/-- Index of the last `'.'` in a character list, if any. -/
def lastDotIdx : List Char → Option Nat
  | [] => none
  | c :: cs => match lastDotIdx cs with
    | some i => some (i+1)
    | none => if c = '.' then some 0 else none

def extname (b : String) : String :=
  match lastDotIdx b.data with
  | none => ""
  | some 0 => ""
  | some i => ⟨b.data.drop i⟩

/-- ASCII lower-casing (`String.prototype.toLowerCase` on the ASCII
extensions/filenames the scanner deals in). -/
def lowerStr (s : String) : String := ⟨s.data.map Char.toLower⟩

/-! ## Scanner lookup tables (verbatim from `local-project-scanner.ts`) -/

/-- `EXTENSION_TO_LANGUAGE`: extension → language label. -/
def EXTENSION_TO_LANGUAGE : List (String × String) := [
  (".c", "C"), (".h", "C"), (".cpp", "C++"), (".cc", "C++"), (".cxx", "C++"),
  (".hpp", "C++"), (".hh", "C++"), (".hxx", "C++"), (".c++", "C++"),
  (".m", "Objective-C"), (".mm", "Objective-C++"),
  (".js", "JavaScript"), (".mjs", "JavaScript"), (".cjs", "JavaScript"),
  (".jsx", "JavaScript"), (".ts", "TypeScript"), (".tsx", "TypeScript"),
  (".mts", "TypeScript"), (".cts", "TypeScript"),
  (".html", "HTML"), (".htm", "HTML"),
  (".css", "CSS"), (".scss", "SCSS"), (".sass", "Sass"), (".less", "Less"),
  (".svelte", "Svelte"), (".vue", "Vue"),
  (".rs", "Rust"), (".go", "Go"), (".zig", "Zig"),
  (".swift", "Swift"), (".kt", "Kotlin"), (".kts", "Kotlin"),
  (".java", "Java"), (".scala", "Scala"), (".clj", "Clojure"),
  (".groovy", "Groovy"), (".gradle", "Groovy"),
  (".py", "Python"), (".pyw", "Python"), (".pyi", "Python"),
  (".rb", "Ruby"), (".erb", "Ruby"),
  (".php", "PHP"),
  (".pl", "Perl"), (".pm", "Perl"),
  (".lua", "Lua"),
  (".r", "R"), (".R", "R"),
  (".jl", "Julia"),
  (".sh", "Shell"), (".bash", "Shell"), (".zsh", "Shell"),
  (".fish", "Shell"), (".ps1", "PowerShell"), (".bat", "Batchfile"),
  (".cmd", "Batchfile"),
  (".json", "JSON"), (".yaml", "YAML"), (".yml", "YAML"),
  (".toml", "TOML"), (".xml", "XML"), (".ini", "INI"),
  (".cu", "Cuda"), (".cuh", "Cuda"),
  (".metal", "Metal"),
  (".glsl", "GLSL"), (".vert", "GLSL"), (".frag", "GLSL"),
  (".wgsl", "WGSL"), (".hlsl", "HLSL"),
  (".cmake", "CMake"),
  (".cs", "C#"), (".fs", "F#"), (".vb", "Visual Basic"),
  (".ex", "Elixir"), (".exs", "Elixir"),
  (".erl", "Erlang"), (".hrl", "Erlang"),
  (".hs", "Haskell"), (".lhs", "Haskell"),
  (".ml", "OCaml"), (".mli", "OCaml"),
  (".dart", "Dart"),
  (".sol", "Solidity"), (".v", "V"), (".nim", "Nim"),
  (".d", "D"), (".cr", "Crystal"),
  (".md", "Markdown"), (".rst", "reStructuredText"),
  (".tex", "TeX"), (".latex", "TeX")
]

/-- `FILENAME_TO_LANGUAGE`: special basenames that indicate a language. -/
def FILENAME_TO_LANGUAGE : List (String × String) := [
  ("Dockerfile", "Dockerfile"),
  ("Makefile", "Makefile"),
  ("CMakeLists.txt", "CMake"),
  ("Rakefile", "Ruby"),
  ("Gemfile", "Ruby"),
  ("Vagrantfile", "Ruby"),
  ("Justfile", "Just"),
  ("Taskfile.yml", "YAML")
]

/-- `SKIP_DIRS`: directories pruned before descent. -/
def SKIP_DIRS : List String := [
  "node_modules", ".git", ".svn", ".hg", "dist", "build", "out",
  ".next", ".nuxt", "__pycache__", ".pytest_cache", ".mypy_cache",
  "venv", ".venv", "env", ".env", "vendor", "target", ".cargo",
  "coverage", ".idea", ".vscode", "tmp", "temp", "logs",
  ".cache", ".parcel-cache", ".turbo", ".output",
  "bower_components", "jspm_packages",
  "zig-cache", "zig-out"
]

/-- `SKIP_EXTENSIONS`: binary/generated extensions excluded before
classification.  Note it contains the two-dot entries `".min.js"` and
`".min.css"`. -/
def SKIP_EXTENSIONS : List String := [
  ".png", ".jpg", ".jpeg", ".gif", ".ico", ".svg", ".webp", ".bmp",
  ".mp3", ".mp4", ".wav", ".avi", ".mov", ".flac", ".ogg",
  ".zip", ".tar", ".gz", ".bz2", ".xz", ".7z", ".rar",
  ".woff", ".woff2", ".ttf", ".eot", ".otf",
  ".pdf", ".doc", ".docx", ".xls", ".xlsx",
  ".exe", ".dll", ".so", ".dylib", ".o", ".obj", ".a",
  ".lock", ".lockb",
  ".map", ".min.js", ".min.css",
  ".pyc", ".pyo", ".class",
  ".db", ".sqlite", ".sqlite3"
]

/-- `EXCLUDE_FROM_PERCENTAGES`: config/markup languages excluded from the
percentage denominator and the sorted breakdown list. -/
def EXCLUDE_FROM_PERCENTAGES : List String := [
  "JSON", "YAML", "TOML", "XML", "INI", "Markdown",
  "reStructuredText", "TeX"
]

/-! ## Per-file classification (the body of the `walkDirectory` callback
in `scanLanguages`, lines 264–284) -/

/-- The walk callback classifies one basename: lower-cased `extname`, the
`SKIP_EXTENSIONS` early return, then the extension table with the special
filename table as fallback (`EXTENSION_TO_LANGUAGE[ext] ||
FILENAME_TO_LANGUAGE[basename]`); `none` means the file is not counted. -/
def classifyFile (basename : String) : Option String :=
  let ext := lowerStr (extname basename)
  if SKIP_EXTENSIONS.contains ext then none
  else
    match EXTENSION_TO_LANGUAGE.lookup ext with
    | some lang => some lang
    | none => FILENAME_TO_LANGUAGE.lookup basename

example : extname "bundle.min.js" = ".js" := by rfl
example : extname ".bashrc" = "" := by rfl
example : extname "Dockerfile" = "" := by rfl
example : extname "a.JS" = ".JS" := by rfl
example : classifyFile "bundle.min.js" = some "JavaScript" := by rfl
example : classifyFile "x.lock" = none := by rfl
example : classifyFile "Makefile" = some "Makefile" := by rfl
example : classifyFile "photo.png" = none := by rfl

/-! ## The directory walker (`walkDirectory`, lines 314–342)

A directory tree is modelled as a list of entries; `fs.readdir(...,
{withFileTypes: true})` yields `Dirent`s for which a symbolic link answers
`false` to both `isDirectory()` and `isFile()` (readdir does not follow
links), so the `if (entry.isDirectory()) ... else if (entry.isFile())`
chain skips a symlink entirely.  We record a symlink's (never-consulted)
target subtree to state that explicitly.  An unreadable directory models a
`readdir` failure (caught, treated as empty); an unreadable file models a
`stat` failure (caught, skipped). -/

inductive FsEntry where
  | file (name : String) (size : Nat)
  | fileUnreadable (name : String)
  | dir (name : String) (entries : List FsEntry)
  | dirUnreadable (name : String)
  | symlink (name : String) (target : List FsEntry)

/-- Model of `entry.name.startsWith('.')` (equivalent to
`String.startsWith "."`, written on the character list so that concrete
trees evaluate). -/
def startsWithDot (s : String) : Bool :=
  match s.data with
  | [] => false
  | c :: _ => c = '.'

/-- The `for (const entry of entries)` loop of `walkDirectory`: a
directory is recursed into unless its name is in `SKIP_DIRS` or starts
with `'.'` (an unreadable one acts as empty — the `readdir` failure is
caught); a readable file is visited (its basename and `stat` size
reported), an unreadable one skipped (the `stat` failure is caught); a
symlink answers `false` to both `Dirent.isDirectory()` and
`Dirent.isFile()`, so it falls through the whole `if/else if` chain and
contributes nothing — its target is never consulted.  `walkList` applied
to the root's entries is `walkDirectory(this.projectRoot, cb)`: the root
itself undergoes no name check, exactly as in the source. -/
def walkList : List FsEntry → List (String × Nat)
  | [] => []
  | .file name size :: es => (name, size) :: walkList es
  | .fileUnreadable _ :: es => walkList es
  | .dir name inner :: es =>
      (if SKIP_DIRS.contains name || startsWithDot name then []
       else walkList inner) ++ walkList es
  | .dirUnreadable _ :: es => walkList es
  | .symlink _ _ :: es => walkList es

/-- File nodes of the tree proper (symlink targets are pointers, not tree
nodes, and are not counted). -/
def fileCountList : List FsEntry → Nat
  | [] => 0
  | .file _ _ :: es => 1 + fileCountList es
  | .fileUnreadable _ :: es => 1 + fileCountList es
  | .dir _ inner :: es => fileCountList inner + fileCountList es
  | .dirUnreadable _ :: es => fileCountList es
  | .symlink _ _ :: es => fileCountList es

/-- Erase every symlink entry (together with its phantom target) from a
tree. -/
def eraseSymlinksList : List FsEntry → List FsEntry
  | [] => []
  | .file name size :: es => .file name size :: eraseSymlinksList es
  | .fileUnreadable name :: es => .fileUnreadable name :: eraseSymlinksList es
  | .dir name inner :: es =>
      .dir name (eraseSymlinksList inner) :: eraseSymlinksList es
  | .dirUnreadable name :: es => .dirUnreadable name :: eraseSymlinksList es
  | .symlink _ _ :: es => eraseSymlinksList es

/-- A flat directory holding `n` one-byte files (a pathologically wide
synthetic tree). -/
def wideEntries (n : Nat) : List FsEntry :=
  (List.range n).map (fun i => .file ("f" ++ toString i) 1)

/-- A chain of `n` nested directories named `"d"` with a single one-byte
file `"leaf"` at the bottom (a pathologically deep synthetic tree). -/
def deepEntry : Nat → FsEntry
  | 0 => .file "leaf" 1
  | n + 1 => .dir "d" [deepEntry n]

example : walkList [.file "a.js" 3, .symlink "loop" [.file "x.js" 9],
    .dir "src" [.file "b.ts" 4], .dir "node_modules" [.file "c.js" 5],
    .dir ".git" [.file "d.js" 6]] = [("a.js", 3), ("b.ts", 4)] := by
  simp +decide [walkList]
example : walkList [deepEntry 5] = [("leaf", 1)] := by
  simp +decide [walkList, deepEntry]

/-! ## Language aggregation (`scanLanguages`, lines 253–309)

The walk callback accumulates `languageBytes` — a JavaScript object whose
`Object.entries` iteration order is key-insertion order, i.e. the order in
which languages are first encountered — plus `totalFiles`/`totalBytes`
over classified files only.  We model the object as an association list in
first-encounter order. -/

structure LangAgg where
  language : String
  bytes : Nat
  files : Nat
deriving DecidableEq

/-- `languageBytes[language].bytes += size; languageBytes[language].files++`
(creating the entry at the end, in first-encounter position, if new). -/
def bump : List LangAgg → String → Nat → List LangAgg
  | [], lang, size => [⟨lang, size, 1⟩]
  | e :: es, lang, size =>
      if e.language = lang then ⟨e.language, e.bytes + size, e.files + 1⟩ :: es
      else e :: bump es lang size

/-- One callback invocation's effect on the accumulator: classify, then
record bytes and file count (unclassified files leave it unchanged). -/
def aggStep (acc : List LangAgg) (f : String × Nat) : List LangAgg :=
  match classifyFile f.1 with
  | none => acc
  | some lang => bump acc lang f.2

/-- The `languageBytes` accumulator after the walk: one fold of the
callback over the visited `(basename, size)` pairs. -/
def aggregate (files : List (String × Nat)) : List LangAgg :=
  files.foldl aggStep []

/-- `totalFiles`: incremented only for files that classify to a language. -/
def totalFilesOf (files : List (String × Nat)) : Nat :=
  (files.filter (fun f => (classifyFile f.1).isSome)).length

/-- `totalBytes`: summed only over files that classify to a language. -/
def totalBytesOf (files : List (String × Nat)) : Nat :=
  ((files.filter (fun f => (classifyFile f.1).isSome)).map (·.2)).sum

/-- The non-excluded entries, in first-encounter order
(`Object.entries(languageBytes).filter(([lang]) => !EXCLUDE...)`). -/
def nonExcluded (files : List (String × Nat)) : List LangAgg :=
  (aggregate files).filter
    (fun e => ¬ EXCLUDE_FROM_PERCENTAGES.contains e.language)

/-- `codeTotalBytes`: the percentage denominator. -/
def codeTotalBytes (files : List (String × Nat)) : Nat :=
  ((nonExcluded files).map (·.bytes)).sum

structure LanguageBreakdown where
  language : String
  bytes : Nat
  percentage : ℚ
  fileCount : Nat
deriving DecidableEq

/-- The unsorted breakdown list:
`percentage = codeTotalBytes > 0 ? (bytes / codeTotalBytes) * 100 : 0`
(exact rational arithmetic models the double computation). -/
def breakdowns (files : List (String × Nat)) : List LanguageBreakdown :=
  (nonExcluded files).map fun e =>
    ⟨e.language, e.bytes,
     if 0 < codeTotalBytes files
       then ((e.bytes : ℚ) / (codeTotalBytes files : ℚ)) * 100 else 0,
     e.files⟩

/-- Insert keeping byte-descending order; an inserted element lands
strictly after every element with at least as many bytes. -/
def insertByBytesDesc (x : LanguageBreakdown) :
    List LanguageBreakdown → List LanguageBreakdown
  | [] => [x]
  | y :: ys =>
      if y.bytes < x.bytes then x :: y :: ys else y :: insertByBytesDesc x ys

/-- `.sort((a, b) => b.bytes - a.bytes)`.  `Array.prototype.sort` is
stable (ES2019), and a stable sort for the total preorder "bytes
descending" has a unique result, so this stable insertion sort (later
elements of `l` are inserted after earlier ties) is extensionally the
JavaScript sort. -/
def sortByBytesDesc (l : List LanguageBreakdown) : List LanguageBreakdown :=
  l.foldl (fun acc x => insertByBytesDesc x acc) []

/-- The `languages` array of the scan result. -/
def languagesOf (files : List (String × Nat)) : List LanguageBreakdown :=
  sortByBytesDesc (breakdowns files)

/-- `languages.length > 0 ? languages[0].language : 'Unknown'`. -/
def primaryLanguageOf (files : List (String × Nat)) : String :=
  match (languagesOf files).head? with
  | some b => b.language
  | none => "Unknown"

structure ScanLanguagesResult where
  languages : List LanguageBreakdown
  primaryLanguage : String
  totalFiles : Nat
  totalBytes : Nat
deriving DecidableEq

/-- `scanLanguages` over the list of `(basename, size)` pairs the walk
reported (the `languageStrings` display field is omitted: it is string
formatting of `languages`, used by no claim). -/
def scanLanguages (files : List (String × Nat)) : ScanLanguagesResult :=
  { languages := languagesOf files
    primaryLanguage := primaryLanguageOf files
    totalFiles := totalFilesOf files
    totalBytes := totalBytesOf files }

/-- Sum of the reported percentages (over the non-excluded set, which is
all the `languages` list contains). -/
def percentageSum (files : List (String × Nat)) : ℚ :=
  ((scanLanguages files).languages.map (·.percentage)).sum

example : nonExcluded [("a.js", 30), ("b.ts", 50), ("c.js", 20)] =
    [⟨"JavaScript", 50, 2⟩, ⟨"TypeScript", 50, 1⟩] := by rfl
example : (scanLanguages [("a.js", 30), ("b.ts", 50), ("c.js", 20)]).primaryLanguage
    = "JavaScript" := by rfl
example : (scanLanguages [("a.js", 30), ("b.ts", 50), ("c.js", 20)]).totalFiles = 3 := by rfl
example : percentageSum [("a.js", 30), ("b.ts", 50), ("c.js", 20)] = 100 := by
  have h : (scanLanguages [("a.js", 30), ("b.ts", 50), ("c.js", 20)]).languages.map
      (·.percentage) = [(50 : ℚ) / 100 * 100, (50 : ℚ) / 100 * 100] := by rfl
  rw [percentageSum, h]
  norm_num
example : primaryLanguageOf [("package-lock.json", 99999), ("a.py", 1)] = "Python" := by rfl
example : primaryLanguageOf [("x.png", 5)] = "Unknown" := by rfl

/-! ## Type-aware slot scoring
(`faf-generator-championship.ts`: `SLOT_CATEGORY_MAP`,
`TYPE_APPLICABLE_CATEGORIES`, `getApplicableSlots`, and the scoring block
of `generateFafFromProject`, lines 708–803) -/

/-- Slot → category (static configuration, verbatim). -/
def SLOT_CATEGORY_MAP : List (String × String) := [
  ("project_name", "project"),
  ("project_goal", "project"),
  ("main_language", "project"),
  ("framework", "frontend"),
  ("backend", "backend"),
  ("server", "backend"),
  ("api_type", "backend"),
  ("database", "backend"),
  ("hosting", "universal"),
  ("cicd", "universal"),
  ("build_tool", "universal"),
  ("package_manager", "universal"),
  ("test_framework", "universal"),
  ("linter", "universal"),
  ("who", "human"),
  ("what", "human"),
  ("why", "human"),
  ("where", "human"),
  ("when", "human"),
  ("how", "human")
]

/-- Project type → applicable categories (static configuration, verbatim). -/
def TYPE_APPLICABLE_CATEGORIES : List (String × List String) := [
  ("cli", ["project", "universal", "human"]),
  ("cli-tool", ["project", "universal", "human"]),
  ("cli-ts", ["project", "universal", "human"]),
  ("cli-js", ["project", "universal", "human"]),
  ("library", ["project", "universal", "human"]),
  ("npm-package", ["project", "universal", "human"]),
  ("pip-package", ["project", "universal", "human"]),
  ("crate", ["project", "universal", "human"]),
  ("typescript", ["project", "universal", "human"]),
  ("data-science", ["project", "backend", "human"]),
  ("ml-model", ["project", "backend", "human"]),
  ("mcp-server", ["project", "backend", "human"]),
  ("backend-api", ["project", "backend", "universal", "human"]),
  ("node-api", ["project", "backend", "universal", "human"]),
  ("node-api-ts", ["project", "backend", "universal", "human"]),
  ("python-api", ["project", "backend", "universal", "human"]),
  ("python-app", ["project", "backend", "human"]),
  ("python-generic", ["project", "backend", "human"]),
  ("go-api", ["project", "backend", "universal", "human"]),
  ("rust-api", ["project", "backend", "universal", "human"]),
  ("frontend", ["project", "frontend", "universal", "human"]),
  ("react", ["project", "frontend", "universal", "human"]),
  ("react-ts", ["project", "frontend", "universal", "human"]),
  ("vue", ["project", "frontend", "universal", "human"]),
  ("vue-ts", ["project", "frontend", "universal", "human"]),
  ("svelte", ["project", "frontend", "universal", "human"]),
  ("svelte-ts", ["project", "frontend", "universal", "human"]),
  ("angular", ["project", "frontend", "universal", "human"]),
  ("static-html", ["project", "frontend", "human"]),
  ("fullstack", ["project", "frontend", "backend", "universal", "human"]),
  ("fullstack-ts", ["project", "frontend", "backend", "universal", "human"]),
  ("nextjs", ["project", "frontend", "backend", "universal", "human"]),
  ("django", ["project", "frontend", "backend", "universal", "human"]),
  ("rails", ["project", "frontend", "backend", "universal", "human"]),
  ("mobile", ["project", "frontend", "human"]),
  ("react-native", ["project", "frontend", "human"]),
  ("flutter", ["project", "frontend", "human"]),
  ("ios", ["project", "frontend", "human"]),
  ("android", ["project", "frontend", "human"]),
  ("desktop", ["project", "frontend", "human"]),
  ("electron", ["project", "frontend", "human"]),
  ("tauri", ["project", "frontend", "human"]),
  ("terraform", ["project", "human"]),
  ("kubernetes", ["project", "human"]),
  ("docker", ["project", "human"]),
  ("infrastructure", ["project", "human"]),
  ("documentation", ["project", "human"]),
  ("cookbook", ["project", "human"])
]

/-- `getApplicableSlots`: slots whose category belongs to the type's
applicable set; an unrecognized type falls back to all five categories. -/
def getApplicableSlots (projectType : String) : List String :=
  let categories := (TYPE_APPLICABLE_CATEGORIES.lookup projectType).getD
    ["project", "frontend", "backend", "universal", "human"]
  (SLOT_CATEGORY_MAP.map (·.1)).filter
    (fun slot => categories.contains ((SLOT_CATEGORY_MAP.lookup slot).getD ""))

/-- The fixed 14-slot technical partition (scoring block, lines 723–727). -/
def technicalSlots : List String := [
  "project_name", "project_goal", "main_language", "framework",
  "backend", "server", "api_type", "database", "hosting",
  "cicd", "build_tool", "package_manager", "test_framework", "linter"
]

/-- The fixed 6-slot human partition. -/
def humanSlots : List String := ["who", "what", "why", "where", "when", "how"]

/-- First pass: count applicable technical slots. -/
def applicableTechCount (pt : String) : Nat :=
  (technicalSlots.filter (fun s => (getApplicableSlots pt).contains s)).length

/-- First pass: count applicable human slots. -/
def applicableHumanCount (pt : String) : Nat :=
  (humanSlots.filter (fun s => (getApplicableSlots pt).contains s)).length

def totalApplicable (pt : String) : Nat :=
  applicableTechCount pt + applicableHumanCount pt

/-- `naSlotCount = 20 - totalApplicable`. -/
def naSlotCount (pt : String) : Nat := 20 - totalApplicable pt

/-- `applicableMaxRaw = applicableTechCount*4 + applicableHumanCount*5`. -/
def applicableMaxRaw (pt : String) : Nat :=
  applicableTechCount pt * 4 + applicableHumanCount pt * 5

/-- `slotScale = applicableMaxRaw > 0 ? 86 / applicableMaxRaw : 1`. -/
def slotScale (pt : String) : ℚ :=
  if 0 < applicableMaxRaw pt then 86 / (applicableMaxRaw pt : ℚ) else 1

/-- Second pass: filled applicable technical slots
(`contextSlotsFilled[slot]` truthiness abstracted as `filled`). -/
def technicalFilled (pt : String) (filled : String → Bool) : Nat :=
  (technicalSlots.filter
    (fun s => (getApplicableSlots pt).contains s && filled s)).length

/-- Second pass: filled applicable human slots. -/
def humanFilled (pt : String) (filled : String → Bool) : Nat :=
  (humanSlots.filter
    (fun s => (getApplicableSlots pt).contains s && filled s)).length

/-- The slot part of `enhancedScore`: each filled applicable technical
slot adds `4 * slotScale`, each filled applicable human slot
`5 * slotScale`. -/
def slotScore (pt : String) (filled : String → Bool) : ℚ :=
  (technicalFilled pt filled : ℚ) * 4 * slotScale pt
    + (humanFilled pt filled : ℚ) * 5 * slotScale pt

/-- FAB-FORMATS `highestGrade` bonus (lines 772–783). -/
def gradeBonus (grade : String) : ℚ :=
  if grade = "EXCEPTIONAL" then 20
  else if grade = "PROFESSIONAL" then 15
  else if grade = "GOOD" then 10
  else if grade = "BASIC" then 5
  else 0

/-- Intelligence-depth bonus (lines 786–792). -/
def depthBonus (depth : ℚ) : ℚ :=
  if 80 < depth then 15 else if 60 < depth then 10
  else if 40 < depth then 5 else 0

/-- TypeScript bonus: +5 when a tsconfig analysis exists, +5 more for
strict mode (lines 795–800). -/
def tsBonus (tsPresent tsStrict : Bool) : ℚ :=
  if tsPresent then (if tsStrict then 10 else 5) else 0

/-- The running `enhancedScore` just before the final cap. -/
def enhancedScore (pt : String) (filled : String → Bool) (grade : String)
    (depth : ℚ) (tsPresent tsStrict : Bool) : ℚ :=
  slotScore pt filled + gradeBonus grade + depthBonus depth
    + tsBonus tsPresent tsStrict

/-- `const fafScore = Math.min(Math.round(enhancedScore), 99)`
(`Math.round x = ⌊x + 1/2⌋`, which is Mathlib's `round`). -/
def fafScore (pt : String) (filled : String → Bool) (grade : String)
    (depth : ℚ) (tsPresent tsStrict : Bool) : ℤ :=
  min (round (enhancedScore pt filled grade depth tsPresent tsStrict)) 99

/-- `slotBasedPercentage` (display number, lines 860–862). -/
def slotBasedPercentage (pt : String) (filled : String → Bool) : ℤ :=
  if 0 < totalApplicable pt then
    round ((((technicalFilled pt filled + humanFilled pt filled : Nat) : ℚ)
      / (totalApplicable pt : ℚ)) * 100)
  else 0

example : getApplicableSlots "terraform" =
    ["project_name", "project_goal", "main_language",
     "who", "what", "why", "where", "when", "how"] := by rfl
example : applicableTechCount "terraform" = 3 := by rfl
example : applicableHumanCount "terraform" = 6 := by rfl
example : naSlotCount "terraform" = 11 := by rfl
example : applicableMaxRaw "fullstack" = 86 := by rfl
example : totalApplicable "no-such-type" = 20 := by rfl

/-! ## The context-slot filling pipeline
(`generateFafFromProject`, lines 347–706)

`contextSlotsFilled` is a string-keyed object; we model it as
`String → Option String`.  The source only ever stores values it has
checked to be truthy (non-empty), so `some v` stands for a truthy stored
string and the guards `if (!contextSlotsFilled[k])` become `isNone`
tests.  Each upstream source field of the form "string or absent/empty"
is an `Option String` whose `some` is a truthy value. -/

def SlotState : Type := String → Option String

def emptySlots : SlotState := fun _ => none

/-- `contextSlotsFilled[k] = v` (unconditional assignment). -/
def setSlot (st : SlotState) (k v : String) : SlotState :=
  fun s => if s = k then some v else st s

/-- `if (!contextSlotsFilled[k]) contextSlotsFilled[k] = v` (the
guarded-write idiom). -/
def fillIfAbsent (st : SlotState) (k v : String) : SlotState :=
  if (st k).isSome then st else setSlot st k v

/-- `if (src) contextSlotsFilled[k] = src` (write only a truthy source,
unconditionally). -/
def setOpt (st : SlotState) (k : String) (v : Option String) : SlotState :=
  match v with
  | some x => setSlot st k x
  | none => st

/-- `if (src && !contextSlotsFilled[k]) contextSlotsFilled[k] = src`. -/
def fillOpt (st : SlotState) (k : String) (v : Option String) : SlotState :=
  match v with
  | some x => fillIfAbsent st k x
  | none => st

/-- The `GenerateOptions` fields used by validation, slot filling and
type inference. -/
structure GenOptions where
  projectRoot : Option String
  projectType : Option String
  projectName : Option String
  projectGoal : Option String
  mainLanguage : Option String
  framework : Option String
  hosting : Option String

/-- The scanner results consumed by the pipeline. -/
structure ScanIn where
  primaryLanguage : String
  readmeExists : Bool
  readmeName : Option String
  readmeDescription : Option String
  readmeWho : Option String
  readmeWhat : Option String
  readmeWhy : Option String
  readmeWhere : Option String
  readmeWhen : Option String
  readmeHow : Option String
  hasLicense : Bool
  licenseName : Option String
  hasTests : Bool
  hasCiCd : Bool
  cicdPlatform : Option String
  hasDocker : Bool
  topFiles : List String

/-- Framework-detector result (`DetectionResult` fields the pipeline
reads; `framework` is always a string, `"Unknown"` when undetected). -/
structure FwIn where
  framework : String
  language : Option String
  ecosystem : Option String

/-- AI README analysis result (`AIReadmeResult` fields the pipeline
reads; `where`/`when` renamed — `where` is a Lean keyword). -/
structure AiIn where
  description : Option String
  who : Option String
  what : Option String
  why : Option String
  whereS : Option String
  whenS : Option String
  how : Option String
  projectType : Option String

/-- FAB-FORMATS `fabAnalysis.context` fields (all independently
optional; the fallback analysis has them all absent). -/
structure FabCtx where
  projectName : Option String
  projectGoal : Option String
  mainLanguage : Option String
  framework : Option String
  backend : Option String
  server : Option String
  apiType : Option String
  database : Option String
  hosting : Option String
  cicd : Option String
  buildTool : Option String
  packageManager : Option String
  testFramework : Option String
  linter : Option String
  targetUser : Option String
  coreProblem : Option String
  missionPurpose : Option String
  deploymentMarket : Option String
  timeline : Option String
  approach : Option String

/-- RelentlessContextExtractor output (`humanContext.x.value`
truthiness). -/
structure HumanCtxIn where
  who : Option String
  what : Option String
  why : Option String
  whereS : Option String
  whenS : Option String
  how : Option String

/-- The package.json dependency flags and fields the Node-CLI branch
reads (`deps = {...dependencies, ...devDependencies}`). -/
structure DepsIn where
  chalk : Bool
  colors : Bool
  ora : Bool
  inquirer : Bool
  prompts : Bool
  enquirer : Bool
  commander : Bool
  yargs : Bool
  oclif : Bool
  typescript : Bool
  typesNode : Bool
  jest : Bool
  mocha : Bool
  vitest : Bool
  enginesNode : Option String

/-- Everything the pipeline after quick mode consumes.  The predicates
`isRustCLI` / `isNodeCLI` / `isBunProject` / `githubWorkflowsExists` are
computed by the source from manifests (`Cargo.toml` content,
`package.json` `bin`/`keywords`/dependencies, `bun.lockb`,
`.github/workflows`); their derivation touches no slot state, so they
enter the model as the booleans they produce. -/
structure GenInputs where
  scan : ScanIn
  frameworkResult : Option FwIn
  aiResult : Option AiIn
  fab : FabCtx
  humanContext : Option HumanCtxIn
  deps : DepsIn
  isRustCLI : Bool
  isNodeCLI : Bool
  isBunProject : Bool
  githubWorkflowsExists : Bool
  cargoName : Option String
  cargoDescription : Option String
  pkgName : Option String
  pkgDescription : Option String
  pyName : Option String
  pyDescription : Option String

/-- Quick-mode fills (lines 355–369): unconditional assignments of the
user-provided fields, with the `'none'`/`'cloud'` sentinels skipped. -/
def quickModeStage (o : GenOptions) (st : SlotState) : SlotState :=
  let st := setOpt st "project_goal" o.projectGoal
  let st := setOpt st "project_name" o.projectName
  let st := setOpt st "main_language" o.mainLanguage
  let st := match o.framework with
    | some f => if f ≠ "none" then setSlot st "framework" f else st
    | none => st
  match o.hosting with
  | some h => if h ≠ "cloud" then setSlot st "hosting" h else st
  | none => st

/-- Lines 373–375: the scanner's primary language is written
*unconditionally* (it overwrites even a quick-mode value). -/
def scannerStage (scan : ScanIn) (st : SlotState) : SlotState :=
  if scan.primaryLanguage ≠ "" ∧ scan.primaryLanguage ≠ "Unknown" then
    setSlot st "main_language" scan.primaryLanguage
  else st

/-- Lines 378–388: framework detector — `framework` guarded,
`main_language` guarded, but `package_manager` written unconditionally. -/
def frameworkStage (fw : Option FwIn) (st : SlotState) : SlotState :=
  match fw with
  | none => st
  | some f =>
      if f.framework = "Unknown" then st
      else
        let st := fillIfAbsent st "framework" f.framework
        let st := fillOpt st "main_language" f.language
        setOpt st "package_manager" f.ecosystem

/-- Lines 409–436: AI results — all human-context fills guarded;
`_ai_project_type` recorded. -/
def aiStage (ai : Option AiIn) (st : SlotState) : SlotState :=
  match ai with
  | none => st
  | some a =>
      let st := fillOpt st "project_goal" a.description
      let st := fillOpt st "who" a.who
      let st := fillOpt st "what" a.what
      let st := fillOpt st "why" a.why
      let st := fillOpt st "where" a.whereS
      let st := fillOpt st "when" a.whenS
      let st := fillOpt st "how" a.how
      setOpt st "_ai_project_type" a.projectType

/-- Lines 439–464: local README-derived context, all guarded. -/
def readmeLocalStage (scan : ScanIn) (st : SlotState) : SlotState :=
  if scan.readmeExists then
    let st := fillOpt st "project_name" scan.readmeName
    let st := fillOpt st "project_goal" scan.readmeDescription
    let st := fillOpt st "who" scan.readmeWho
    let st := fillOpt st "what" scan.readmeWhat
    let st := fillOpt st "why" scan.readmeWhy
    let st := fillOpt st "where" scan.readmeWhere
    let st := fillOpt st "when" scan.readmeWhen
    fillOpt st "how" scan.readmeHow
  else st

/-- Lines 467–469. -/
def licenseStage (scan : ScanIn) (st : SlotState) : SlotState :=
  if scan.hasLicense then setOpt st "license" scan.licenseName else st

/-- Lines 472–474 (unconditional). -/
def cicdStage (scan : ScanIn) (st : SlotState) : SlotState :=
  if scan.hasCiCd then setOpt st "cicd" scan.cicdPlatform else st

/-- Lines 477–479 (unconditional). -/
def testsStage (scan : ScanIn) (st : SlotState) : SlotState :=
  if scan.hasTests then setSlot st "test_framework" "Detected (tests/ directory)"
  else st

/-- Lines 482–484: `hosting = hosting || 'Docker'`. -/
def dockerStage (scan : ScanIn) (st : SlotState) : SlotState :=
  if scan.hasDocker then fillIfAbsent st "hosting" "Docker" else st

/-- Lines 487–502: build tool from top-level files, guarded as a whole. -/
def buildToolStage (scan : ScanIn) (st : SlotState) : SlotState :=
  if (st "build_tool").isSome then st
  else if scan.topFiles.contains "CMakeLists.txt" then
    setSlot st "build_tool" "CMake"
  else if scan.topFiles.contains "Makefile" then
    setSlot st "build_tool" "Make"
  else if scan.topFiles.contains "meson.build" then
    setSlot st "build_tool" "Meson"
  else if scan.topFiles.contains "build.gradle"
      || scan.topFiles.contains "build.gradle.kts" then
    setSlot st "build_tool" "Gradle"
  else if scan.topFiles.contains "pom.xml" then
    setSlot st "build_tool" "Maven"
  else if scan.topFiles.contains "build.zig" then
    setSlot st "build_tool" "Zig Build"
  else st

/-- Lines 505–507: second framework-detector fill (no `"Unknown"` check
this time), guarded. -/
def frameworkStage2 (fw : Option FwIn) (st : SlotState) : SlotState :=
  match fw with
  | none => st
  | some f => fillIfAbsent st "framework" f.framework

/-- Lines 510–536: FAB-FORMATS context.  `project_name`/`project_goal`
and the six human slots are guarded; the twelve other technical slots are
written *unconditionally*. -/
def fabStage (ctx : FabCtx) (st : SlotState) : SlotState :=
  let st := fillOpt st "project_name" ctx.projectName
  let st := fillOpt st "project_goal" ctx.projectGoal
  let st := setOpt st "main_language" ctx.mainLanguage
  let st := setOpt st "framework" ctx.framework
  let st := setOpt st "backend" ctx.backend
  let st := setOpt st "server" ctx.server
  let st := setOpt st "api_type" ctx.apiType
  let st := setOpt st "database" ctx.database
  let st := setOpt st "hosting" ctx.hosting
  let st := setOpt st "cicd" ctx.cicd
  let st := setOpt st "build_tool" ctx.buildTool
  let st := setOpt st "package_manager" ctx.packageManager
  let st := setOpt st "test_framework" ctx.testFramework
  let st := setOpt st "linter" ctx.linter
  let st := fillOpt st "who" ctx.targetUser
  let st := fillOpt st "what" ctx.coreProblem
  let st := fillOpt st "why" ctx.missionPurpose
  let st := fillOpt st "where" ctx.deploymentMarket
  let st := fillOpt st "when" ctx.timeline
  fillOpt st "how" ctx.approach

/-- Lines 540–559: relentless extractor human context, all guarded. -/
def relentlessStage (hc : Option HumanCtxIn) (st : SlotState) : SlotState :=
  match hc with
  | none => st
  | some h =>
      let st := fillOpt st "who" h.who
      let st := fillOpt st "what" h.what
      let st := fillOpt st "why" h.why
      let st := fillOpt st "where" h.whereS
      let st := fillOpt st "when" h.whenS
      fillOpt st "how" h.how

/-- Lines 598–619: Rust-CLI smart slot assignment (unconditional except
the Cargo.toml name/description fills). -/
def rustCliStage (g : GenInputs) (st : SlotState) : SlotState :=
  if g.isRustCLI then
    let st := setSlot st "framework" "CLI"
    let st := setSlot st "api_type" "CLI"
    let st := setSlot st "hosting" "crates.io / Binary distribution"
    let st := setSlot st "backend" "Rust"
    let st := setSlot st "main_language" "Rust"
    let st := setSlot st "build_tool" "Cargo"
    let st := setSlot st "package_manager" "Cargo"
    let st := setSlot st "runtime" "Native binary"
    let st := setSlot st "css_framework" "N/A (CLI)"
    let st := setSlot st "ui_library" "N/A (CLI)"
    let st := setSlot st "database" "N/A (CLI)"
    let st := setSlot st "frontend" "N/A (CLI)"
    let st := fillOpt st "project_name" g.cargoName
    fillOpt st "project_goal" g.cargoDescription
  else st

/-- Lines 629–631: terminal-UI framework → `css_framework`. -/
def nodeCliCssStage (deps : DepsIn) (st : SlotState) : SlotState :=
  if deps.chalk then setSlot st "css_framework" "chalk (terminal colors)"
  else if deps.colors then setSlot st "css_framework" "colors"
  else if deps.ora then setSlot st "css_framework" "ora"
  else st

/-- Lines 634–636: interactive framework → `ui_library`. -/
def nodeCliUiStage (deps : DepsIn) (st : SlotState) : SlotState :=
  if deps.inquirer then setSlot st "ui_library" "inquirer (interactive prompts)"
  else if deps.prompts then setSlot st "ui_library" "prompts"
  else if deps.enquirer then setSlot st "ui_library" "enquirer"
  else st

/-- Lines 639–641: CLI framework → `cli_framework`. -/
def nodeCliFwStage (deps : DepsIn) (st : SlotState) : SlotState :=
  if deps.commander then setSlot st "cli_framework" "commander"
  else if deps.yargs then setSlot st "cli_framework" "yargs"
  else if deps.oclif then setSlot st "cli_framework" "oclif"
  else st

/-- Lines 644–651: runtime detection (Bun first, then `engines.node`). -/
def nodeCliRuntimeStage (g : GenInputs) (st : SlotState) : SlotState :=
  if g.isBunProject then
    setSlot (setSlot st "runtime" "Bun") "package_manager" "Bun"
  else match g.deps.enginesNode with
    | some v => setSlot st "runtime" ("Node.js " ++ v)
    | none => setSlot st "runtime" "Node.js v16+"

/-- Lines 654–656: TypeScript build detection. -/
def nodeCliBuildStage (deps : DepsIn) (st : SlotState) : SlotState :=
  if deps.typescript || deps.typesNode then
    setSlot st "build_tool" "TypeScript (tsc)"
  else st

/-- Lines 659–661: test-framework detection. -/
def nodeCliTestStage (deps : DepsIn) (st : SlotState) : SlotState :=
  if deps.jest then setSlot st "test_framework" "Jest"
  else if deps.mocha then setSlot st "test_framework" "Mocha"
  else if deps.vitest then setSlot st "test_framework" "Vitest"
  else st

/-- Lines 663–672: `.github/workflows` check. -/
def nodeCliCicdStage (g : GenInputs) (st : SlotState) : SlotState :=
  if g.githubWorkflowsExists then setSlot st "cicd" "GitHub Actions" else st

/-- Lines 621–673: Node-CLI smart slot reuse (the block's statement
groups, in order). -/
def nodeCliStage (g : GenInputs) (st : SlotState) : SlotState :=
  if g.isNodeCLI then
    st
    |> (fun st => setSlot st "framework" "CLI")
    |> (fun st => setSlot st "api_type" "CLI")
    |> (fun st => setSlot st "hosting" "npm registry")
    |> (fun st => setSlot st "backend" "Node.js")
    |> nodeCliCssStage g.deps
    |> nodeCliUiStage g.deps
    |> nodeCliFwStage g.deps
    |> nodeCliRuntimeStage g
    |> nodeCliBuildStage g.deps
    |> nodeCliTestStage g.deps
    |> nodeCliCicdStage g
  else st

/-- Lines 676–679: Bun applies to all Node projects (unconditional). -/
def bunStage (g : GenInputs) (st : SlotState) : SlotState :=
  if g.isBunProject then
    setSlot (setSlot st "runtime" "Bun") "package_manager" "Bun"
  else st

/-- Lines 682–687: package.json name/description, guarded. -/
def pkgStage (g : GenInputs) (st : SlotState) : SlotState :=
  let st := fillOpt st "project_name" g.pkgName
  fillOpt st "project_goal" g.pkgDescription

/-- Lines 690–695: pyproject.toml name/description, guarded. -/
def pyStage (g : GenInputs) (st : SlotState) : SlotState :=
  let st := fillOpt st "project_name" g.pyName
  fillOpt st "project_goal" g.pyDescription

/-- Lines 698–706: `readmeData` (populated at lines 233–238 only when the
README exists), guarded. -/
def readmeDataStage (scan : ScanIn) (st : SlotState) : SlotState :=
  if scan.readmeExists then
    let st := fillOpt st "project_name" scan.readmeName
    let st := fillOpt st "project_goal" scan.readmeDescription
    fillOpt st "who" scan.readmeWho
  else st

/-- Every slot-filling stage after quick mode, in source order. -/
def fillAfterQuick (g : GenInputs) (st : SlotState) : SlotState :=
  st
  |> scannerStage g.scan
  |> frameworkStage g.frameworkResult
  |> aiStage g.aiResult
  |> readmeLocalStage g.scan
  |> licenseStage g.scan
  |> cicdStage g.scan
  |> testsStage g.scan
  |> dockerStage g.scan
  |> buildToolStage g.scan
  |> frameworkStage2 g.frameworkResult
  |> fabStage g.fab
  |> relentlessStage g.humanContext
  |> rustCliStage g
  |> nodeCliStage g
  |> bunStage g
  |> pkgStage g
  |> pyStage g
  |> readmeDataStage g.scan

/-- The full `contextSlotsFilled` map produced by
`generateFafFromProject`. -/
def contextSlotsFilled (o : GenOptions) (g : GenInputs) : SlotState :=
  fillAfterQuick g (quickModeStage o emptySlots)

/-! ## README discovery and the AI-enrichment read
(`findReadme`, lines 480–492; the AI block of `generateFafFromProject`,
lines 392–406) -/

/-- The fixed README name-priority list. -/
def README_CANDIDATES : List String :=
  ["README.md", "readme.md", "Readme.md", "README.rst", "README.txt", "README"]

/-- The project root's directory contents: filename → file content.
`fs.access` succeeds iff the name is present; `fs.readFile` then returns
the content.  (Exact names: the model is a case-sensitive filesystem.) -/
def RootFs : Type := String → Option String

/-- `findReadme`: first candidate that `fs.access` accepts. -/
def findReadme (fs : RootFs) : Option String :=
  README_CANDIDATES.find? (fun name => (fs name).isSome)

/-- `parseReadme().exists` (readable README found by `findReadme`). -/
def readmeExists (fs : RootFs) : Bool := (findReadme fs).isSome

/-- Lines 392–406: if the scan says a README exists, the generator reads
the literal path `'README.md'` and feeds it to `analyzeReadmeWithAI`
(abstracted as `analyze`, which returns `none` when no API key is set or
every provider fails); if that read throws, the `catch` leaves `aiResult`
as `null`. -/
def aiReadmeAnalysis (fs : RootFs) (analyze : String → Option AiIn) :
    Option AiIn :=
  if readmeExists fs then
    match fs "README.md" with
    | some content => analyze content
    | none => none
  else none

/-! ## Project-type inference (`inferProjectType`, lines 128–180) -/

/-- `AI_TYPE_TO_FAF_TYPE` (verbatim). -/
def AI_TYPE_TO_FAF_TYPE : List (String × String) := [
  ("cli", "cli"),
  ("library", "library"),
  ("web-app", "frontend"),
  ("api", "backend-api"),
  ("mobile-app", "mobile"),
  ("desktop-app", "desktop"),
  ("framework", "library"),
  ("tool", "cli"),
  ("plugin", "library"),
  ("data-science", "data-science"),
  ("devops", "infrastructure")
]

/-- Collapse each run of spaces to one `'-'`
(`.replace(/\s+/g, '-')` on names whose whitespace is spaces). -/
def collapseSpaces : List Char → List Char
  | [] => []
  | ' ' :: rest =>
      match collapseSpaces rest with
      | '-' :: tail => '-' :: tail
      | other => '-' :: other
  | c :: rest => c :: collapseSpaces rest

/-- `framework.toLowerCase().replace(/\s+/g, '-')`. -/
def normalizeFrameworkName (s : String) : String :=
  ⟨collapseSpaces (lowerStr s).data⟩

/-- `inferProjectType`: AI hint, then framework detector, then systems
language ⇒ `library`, then the original type if valid, else
`fullstack`. -/
def inferProjectType (scan : ScanIn) (aiProjectType : Option String)
    (fw : Option FwIn) (originalType : Option String) : String :=
  let p1 : Option String :=
    match aiProjectType with
    | none => none
    | some t =>
        match AI_TYPE_TO_FAF_TYPE.lookup t with
        | some m =>
            if (TYPE_APPLICABLE_CATEGORIES.lookup m).isSome then some m
            else if (TYPE_APPLICABLE_CATEGORIES.lookup t).isSome then some t
            else none
        | none =>
            if (TYPE_APPLICABLE_CATEGORIES.lookup t).isSome then some t
            else none
  match p1 with
  | some r => r
  | none =>
    let p2 : Option String :=
      match fw with
      | none => none
      | some f =>
          if f.framework = "" then none
          else
            let fwk := normalizeFrameworkName f.framework
            if (TYPE_APPLICABLE_CATEGORIES.lookup fwk).isSome then some fwk
            else none
    match p2 with
    | some r => r
    | none =>
      if ["C", "C++", "Rust", "Go", "Zig"].contains scan.primaryLanguage then
        "library"
      else
        match originalType with
        | some t =>
            if (TYPE_APPLICABLE_CATEGORIES.lookup t).isSome then t
            else "fullstack"
        | none => "fullstack"

example : inferProjectType ⟨"C++", false, none, none, none, none, none,
    none, none, none, false, none, false, false, none, false, []⟩
    none none (some "python-generic") = "library" := by rfl

/-! ## Error flow of `generateFafFromProject` (lines 207–905)

Every fallible collaborator call is an `Except Unit _` input; the
definition reproduces the source's `try/catch` structure around each.
`scanner.scan()` is *not* wrapped in the source, but every filesystem
operation inside the scanner is individually caught (see the scanner
embedding above), so it enters as plain data.  `generateFafContent` is
pure string building and cannot throw.  The `file-utils` finders
(`findPackageJson`, `findPyprojectToml`, `findRequirementsTxt`,
`findTsConfig`, `analyzeTsConfig`) are not under `src/`; per the spec
(§6 manifest readers as opaque value sources, §7 taxonomy (a)/(b)
recovered locally, never propagated) they are modelled as total,
`Option`-returning probes. -/

/-- Parsed `package.json` data the pipeline reads.  `isNodeCLI` is the
bin/keywords/dependency predicate of lines 588–595, a pure function of
this same parsed object. -/
structure PkgData where
  name : Option String
  description : Option String
  deps : DepsIn
  isNodeCLI : Bool

structure PyData where
  name : Option String
  description : Option String

/-- `Cargo.toml` read results (lines 569–585): the CLI predicate and the
extracted name/description. -/
structure CargoData where
  isRustCLI : Bool
  name : Option String
  description : Option String

/-- `fabAnalysis` fields consumed downstream. -/
structure FabAnalysisIn where
  context : FabCtx
  highestGrade : String
  intelligenceDepth : ℚ

/-- `tsContext` fields consumed downstream. -/
structure TsCtx where
  strictMode : Bool

def emptyFabCtx : FabCtx :=
  ⟨none, none, none, none, none, none, none, none, none, none,
   none, none, none, none, none, none, none, none, none, none⟩

def defaultDeps : DepsIn :=
  ⟨false, false, false, false, false, false, false, false, false,
   false, false, false, false, false, none⟩

/-- One invocation's external world: each `Except Unit _` is a
collaborator call that may throw (and is caught where the source catches
it); each `Option _` is a spec-modelled total probe. -/
structure ExtWorld where
  scanResult : ScanIn
  frameworkDetect : Except Unit FwIn
  packageJsonPath : Option String
  packageJsonRead : Except Unit PkgData
  pyprojectPath : Option String
  pyprojectRead : Except Unit PyData
  requirementsPath : Option String
  requirementsRead : Except Unit (List String)
  fabProcess : Except Unit FabAnalysisIn
  relentless : Except Unit (Option HumanCtxIn)
  tsconfigPath : Option String
  tsconfigAnalysis : Option TsCtx
  claudeDetect : Except Unit Bool
  bunAccess : Except Unit Unit
  cargoRead : Except Unit CargoData
  aiAnalyze : Except Unit (Option AiIn)
  workflowsAccess : Except Unit Bool

structure GenOutput where
  slots : SlotState
  projectType : String
  score : ℤ

/-- `generateFafFromProject`: the only `throw` not inside a `try` is the
`projectRoot` validation at lines 213–215 (`!projectRoot || typeof
projectRoot !== 'string'`; `none` models a missing/non-string value,
`""` the falsy empty string).  Everything downstream recovers locally:
each `catch` yields the source's fallback value and the pipeline
completes with a scored result. -/
def generateFafFromProject (o : GenOptions) (w : ExtWorld) :
    Except String GenOutput :=
  match o.projectRoot with
  | none => .error "Invalid projectRoot"
  | some root =>
    if root = "" then .error "Invalid projectRoot"
    else
      let scanResult := w.scanResult
      -- lines 223–229: framework detection, caught → null
      let frameworkResult : Option FwIn := (w.frameworkDetect).toOption
      -- lines 241–251: package.json, read/parse caught → {}
      let packageData : Option PkgData :=
        match w.packageJsonPath with
        | none => none
        | some _ => (w.packageJsonRead).toOption
      -- lines 254–275: pyproject.toml, read caught → {}
      let pyprojectData : Option PyData :=
        match w.pyprojectPath with
        | none => none
        | some _ => (w.pyprojectRead).toOption
      -- lines 278–289: requirements.txt, read caught → {} (unused below)
      let _requirementsData : Option (List String) :=
        match w.requirementsPath with
        | none => none
        | some _ => (w.requirementsRead).toOption
      -- lines 292–309: FAB-FORMATS, caught → empty analysis
      let fabAnalysis : FabAnalysisIn :=
        match w.fabProcess with
        | .ok a => a
        | .error _ => ⟨emptyFabCtx, "MINIMAL", 0⟩
      -- lines 312–318: relentless extractor, caught → null
      let humanContext : Option HumanCtxIn :=
        match w.relentless with
        | .ok h => h
        | .error _ => none
      -- lines 321–328: tsconfig (spec-modelled total probes)
      let tsContext : Option TsCtx :=
        match w.tsconfigPath with
        | none => none
        | some _ => w.tsconfigAnalysis
      -- lines 331–336: Claude Code detection, caught → null (unused here)
      let _claude : Option Bool := (w.claudeDetect).toOption
      -- lines 339–345: bun.lockb access, caught → false
      let isBunProject : Bool := (w.bunAccess).toOption.isSome
      -- lines 569–585: Cargo.toml read, caught → no data
      let cargo : Option CargoData := (w.cargoRead).toOption
      -- lines 392–406: AI README analysis, caught → null
      let aiResult : Option AiIn :=
        if scanResult.readmeExists then
          match w.aiAnalyze with
          | .ok a => a
          | .error _ => none
        else none
      -- lines 663–672: .github/workflows access, caught → false
      let githubWorkflowsExists : Bool :=
        match w.workflowsAccess with
        | .ok b => b
        | .error _ => false
      let g : GenInputs :=
        { scan := scanResult
          frameworkResult := frameworkResult
          aiResult := aiResult
          fab := fabAnalysis.context
          humanContext := humanContext
          deps := (packageData.map (·.deps)).getD defaultDeps
          isRustCLI := (cargo.map (·.isRustCLI)).getD false
          isNodeCLI := (packageData.map (·.isNodeCLI)).getD false
          isBunProject := isBunProject
          githubWorkflowsExists := githubWorkflowsExists
          cargoName := cargo.bind (·.name)
          cargoDescription := cargo.bind (·.description)
          pkgName := packageData.bind (·.name)
          pkgDescription := packageData.bind (·.description)
          pyName := pyprojectData.bind (·.name)
          pyDescription := pyprojectData.bind (·.description) }
      let slots := contextSlotsFilled o g
      let inferredType :=
        inferProjectType scanResult (slots "_ai_project_type")
          frameworkResult o.projectType
      let filled : String → Bool := fun s => (slots s).isSome
      .ok
        { slots := slots
          projectType := inferredType
          score := fafScore inferredType filled fabAnalysis.highestGrade
            fabAnalysis.intelligenceDepth tsContext.isSome
            ((tsContext.map (·.strictMode)).getD false) }

/-! ### Spec-side definitions used by the claim statements -/

/-- No visited file classifies to a non-excluded language. -/
def NoCountedCodeFile (files : List (String × Nat)) : Prop :=
  ∀ p ∈ files, ∀ lang, classifyFile p.1 = some lang →
    lang ∈ EXCLUDE_FROM_PERCENTAGES

/-- Spec-side accumulator: keep the current best, replace it only on a
*strictly* larger byte count (so the first-encountered entry wins ties). -/
def pickFirstMax (o : Option LanguageBreakdown) (x : LanguageBreakdown) :
    Option LanguageBreakdown :=
  match o with
  | none => some x
  | some b => some (if b.bytes < x.bytes then x else b)

/-- Spec-side definition (from the claim's words, for comparison with the
code): the first-encountered entry of maximal byte count. -/
def specFirstEncounteredMax (l : List LanguageBreakdown) :
    Option LanguageBreakdown :=
  l.foldl pickFirstMax none

/-- Spec-side property: `b` occurs in `l`, every entry before that
occurrence has strictly fewer bytes, and no entry of `l` has more. -/
def IsFirstMax (l : List LanguageBreakdown) (b : LanguageBreakdown) : Prop :=
  (∃ pre post, l = pre ++ b :: post ∧ ∀ e ∈ pre, e.bytes < b.bytes) ∧
  ∀ e ∈ l, e.bytes ≤ b.bytes

/-- The slots whose every write in the pipeline is guarded by
`if (!contextSlotsFilled[slot])`. -/
def guardedSlots : List String :=
  ["project_name", "project_goal", "who", "what", "why", "where", "when", "how"]

/-- Quick-mode options for the counterexample: the user supplied
`mainLanguage: "Foo"`. -/
def o0 : GenOptions :=
  { projectRoot := some "/p", projectType := none, projectName := none
    projectGoal := none, mainLanguage := some "Foo", framework := none
    hosting := none }

/-- Scanner output for the counterexample: primary language JavaScript,
nothing else detected. -/
def scan0 : ScanIn :=
  { primaryLanguage := "JavaScript", readmeExists := false
    readmeName := none, readmeDescription := none, readmeWho := none
    readmeWhat := none, readmeWhy := none, readmeWhere := none
    readmeWhen := none, readmeHow := none, hasLicense := false
    licenseName := none, hasTests := false, hasCiCd := false
    cicdPlatform := none, hasDocker := false, topFiles := [] }

/-- All-quiet generator inputs around `scan0`. -/
def g0 : GenInputs :=
  { scan := scan0, frameworkResult := none, aiResult := none
    fab := emptyFabCtx, humanContext := none, deps := defaultDeps
    isRustCLI := false, isNodeCLI := false, isBunProject := false
    githubWorkflowsExists := false, cargoName := none
    cargoDescription := none, pkgName := none, pkgDescription := none
    pyName := none, pyDescription := none }

/-- A root directory whose README is only present as `readme.md`. -/
def fsLowercaseReadme : RootFs :=
  fun name => if name = "readme.md" then some "# hi" else none

/-! ## Claim theorems -/

/-- C1: for every project type whose applicable categories are exactly
`{project, human}`, `naSlots + applicableSlots = 20` (with 11 N/A and 9
applicable slots), the raw budget is `3*4 + 6*5 = 42`, and with every
applicable slot filled and zero bonus points (grade below `BASIC`, zero
intelligence depth, no tsconfig) the scaled total is exactly
`42 * (86/42) = 86`, so the final score is exactly 86. -/
theorem C1_project_human_full_score (pt : String)
    (h : TYPE_APPLICABLE_CATEGORIES.lookup pt = some ["project", "human"]) :
    naSlotCount pt + totalApplicable pt = 20 ∧
    naSlotCount pt = 11 ∧ totalApplicable pt = 9 ∧
    applicableMaxRaw pt = 42 ∧
    enhancedScore pt (fun _ => true) "MINIMAL" 0 false false = 86 ∧
    fafScore pt (fun _ => true) "MINIMAL" 0 false false = 86 := by
  have hA : getApplicableSlots pt =
      ["project_name", "project_goal", "main_language",
       "who", "what", "why", "where", "when", "how"] := by
    simp only [getApplicableSlots, h]
    rfl
  have hT : applicableTechCount pt = 3 := by
    simp only [applicableTechCount, hA]; rfl
  have hH : applicableHumanCount pt = 6 := by
    simp only [applicableHumanCount, hA]; rfl
  have hTF : technicalFilled pt (fun _ => true) = 3 := by
    simp only [technicalFilled, hA]; rfl
  have hHF : humanFilled pt (fun _ => true) = 6 := by
    simp only [humanFilled, hA]; rfl
  have hMax : applicableMaxRaw pt = 42 := by
    simp only [applicableMaxRaw, hT, hH]
  have hScale : slotScale pt = 86 / 42 := by
    simp only [slotScale, hMax]
    norm_num
  have hgb : gradeBonus "MINIMAL" = 0 := by rfl
  have hdb : depthBonus 0 = 0 := by unfold depthBonus; norm_num
  have htb : tsBonus false false = 0 := by rfl
  have hEnh : enhancedScore pt (fun _ => true) "MINIMAL" 0 false false = 86 := by
    simp only [enhancedScore, slotScore, hTF, hHF, hScale, hgb, hdb, htb]
    norm_num
  refine ⟨?_, ?_, ?_, hMax, hEnh, ?_⟩
  · simp only [naSlotCount, totalApplicable, hT, hH]
  · simp only [naSlotCount, totalApplicable, hT, hH]
  · simp only [totalApplicable, hT, hH]
  · simp only [fafScore, hEnh]
    norm_num

/-- Witness for C1 at the concrete type `"terraform"`. -/
theorem C1_witness :
    TYPE_APPLICABLE_CATEGORIES.lookup "terraform" = some ["project", "human"] ∧
    (naSlotCount "terraform" + totalApplicable "terraform" = 20 ∧
     naSlotCount "terraform" = 11 ∧ totalApplicable "terraform" = 9 ∧
     applicableMaxRaw "terraform" = 42 ∧
     enhancedScore "terraform" (fun _ => true) "MINIMAL" 0 false false = 86 ∧
     fafScore "terraform" (fun _ => true) "MINIMAL" 0 false false = 86) :=
  ⟨rfl, C1_project_human_full_score "terraform" rfl⟩

/-- C5: for every input the final completeness score equals
`min(round(enhancedScore), 99)`, and it always lies in `0..99` — in
particular the algorithm never outputs 100. -/
theorem C5_final_score_bounds (pt : String) (filled : String → Bool)
    (grade : String) (depth : ℚ) (tsPresent tsStrict : Bool) :
    fafScore pt filled grade depth tsPresent tsStrict
      = min (round (enhancedScore pt filled grade depth tsPresent tsStrict)) 99
    ∧ 0 ≤ fafScore pt filled grade depth tsPresent tsStrict
    ∧ fafScore pt filled grade depth tsPresent tsStrict ≤ 99 := by
  refine ⟨rfl, ?_, min_le_right _ _⟩
  have hscale : 0 ≤ slotScale pt := by
    unfold slotScale
    split
    · positivity
    · norm_num
  have hslot : 0 ≤ slotScore pt filled := by
    unfold slotScore
    have h1 : 0 ≤ (technicalFilled pt filled : ℚ) * 4 * slotScale pt := by
      have : (0:ℚ) ≤ (technicalFilled pt filled : ℚ) * 4 := by positivity
      exact mul_nonneg this hscale
    have h2 : 0 ≤ (humanFilled pt filled : ℚ) * 5 * slotScale pt := by
      have : (0:ℚ) ≤ (humanFilled pt filled : ℚ) * 5 := by positivity
      exact mul_nonneg this hscale
    linarith
  have hg : 0 ≤ gradeBonus grade := by
    unfold gradeBonus; split_ifs <;> norm_num
  have hd : 0 ≤ depthBonus depth := by
    unfold depthBonus; split_ifs <;> norm_num
  have ht : 0 ≤ tsBonus tsPresent tsStrict := by
    unfold tsBonus; split_ifs <;> norm_num
  have h0 : 0 ≤ enhancedScore pt filled grade depth tsPresent tsStrict := by
    unfold enhancedScore; linarith
  have hr : (0:ℤ) ≤ round (enhancedScore pt filled grade depth tsPresent tsStrict) := by
    rw [round_eq]
    refine Int.le_floor.mpr ?_
    push_cast
    linarith
  exact le_min hr (by norm_num)

/-- C2 (code bug): `SKIP_EXTENSIONS` does contain `".min.js"`, but
`path.extname('bundle.min.js')` is `'.js'`, which is not in the set, so
the entry can never match: a minified bundle *is* classified as
JavaScript and counted in the language breakdown, the byte totals and the
file count.  (`CODEX-PLAN.md` Task 8 documents exactly this defect.) -/
theorem C2_minified_bundle_is_counted :
    SKIP_EXTENSIONS.contains ".min.js" = true ∧
    extname "bundle.min.js" = ".js" ∧
    classifyFile "bundle.min.js" = some "JavaScript" ∧
    walkList [.file "bundle.min.js" 100] = [("bundle.min.js", 100)] ∧
    (scanLanguages [("bundle.min.js", 100)]).languages
      = [⟨"JavaScript", 100, 100, 1⟩] ∧
    (scanLanguages [("bundle.min.js", 100)]).totalFiles = 1 ∧
    (scanLanguages [("bundle.min.js", 100)]).totalBytes = 100 := by
  refine ⟨rfl, rfl, rfl, by simp +decide [walkList], ?_, rfl, rfl⟩
  have h : (scanLanguages [("bundle.min.js", 100)]).languages
      = [⟨"JavaScript", 100, ((100:ℕ):ℚ)/((100:ℕ):ℚ)*100, 1⟩] := rfl
  rw [h]
  norm_num

theorem walkList_map_file (l : List (String × Nat)) :
    walkList (l.map (fun p => FsEntry.file p.1 p.2)) = l := by
  induction l with
  | nil => simp [walkList]
  | cons p l ih => simp [walkList, ih]

theorem walkList_wideEntries (n : ℕ) :
    (walkList (wideEntries n)).length = n := by
  have h : wideEntries n =
      ((List.range n).map (fun i => ("f" ++ toString i, 1))).map
        (fun p => FsEntry.file p.1 p.2) := by
    simp [wideEntries, List.map_map]
  rw [h, walkList_map_file]
  simp

theorem walkList_deepEntry (n : ℕ) : walkList [deepEntry n] = [("leaf", 1)] := by
  induction n with
  | zero => simp [deepEntry, walkList]
  | succ n ih => simp +decide [deepEntry, walkList, ih]

theorem walkList_length_le (l : List FsEntry) :
    (walkList l).length ≤ fileCountList l := by
  induction l using walkList.induct with
  | case1 => simp [walkList, fileCountList]
  | case2 name size es ih =>
      simp only [walkList, fileCountList, List.length_cons]
      omega
  | case3 name es ih =>
      simp only [walkList, fileCountList]
      omega
  | case4 name inner es ih1 ih2 =>
      simp only [walkList, fileCountList, List.length_append]
      split
      · simp only [List.length_nil]
        omega
      · omega
  | case5 name es ih =>
      simp only [walkList, fileCountList]
      omega
  | case6 name target es ih =>
      simp only [walkList, fileCountList]
      omega

theorem walkList_eraseSymlinks (l : List FsEntry) :
    walkList (eraseSymlinksList l) = walkList l := by
  induction l using walkList.induct with
  | case1 => simp [walkList, eraseSymlinksList]
  | case2 name size es ih => simp [walkList, eraseSymlinksList, ih]
  | case3 name es ih => simp [walkList, eraseSymlinksList, ih]
  | case4 name inner es ih1 ih2 => simp [walkList, eraseSymlinksList, ih1, ih2]
  | case5 name es ih => simp [walkList, eraseSymlinksList, ih]
  | case6 name target es ih => simp [walkList, eraseSymlinksList, ih]

/-- C3 (code bug): `walkDirectory` enforces *no* maximum recursion depth
and *no* maximum visited-file count.  On a flat tree with `n` files it
visits all `n` of them for every `n`; on an `n`-deep nesting it still
reaches and visits the bottom file for every `n`; and no file-count bound
valid for all trees exists.  (`CODEX-PLAN.md` Task 4 records the missing
`MAX_FILES`/`MAX_DEPTH` guards as a critical defect.) -/
theorem C3_walk_has_no_bounds :
    (∀ n : ℕ, (walkList (wideEntries n)).length = n) ∧
    (∀ n : ℕ, walkList [deepEntry n] = [("leaf", 1)]) ∧
    ¬ ∃ maxFiles : ℕ, ∀ t : List FsEntry,
        (walkList t).length ≤ maxFiles := by
  refine ⟨walkList_wideEntries, walkList_deepEntry, ?_⟩
  rintro ⟨maxFiles, hb⟩
  have h := hb (wideEntries (maxFiles + 1))
  rw [walkList_wideEntries] at h
  omega

/-- C8: symbolic links are never traversed.  Deleting every symlink entry
(with whatever its target points at) leaves the walk's output unchanged —
so a cyclic or ancestor-pointing link contributes no visits and cannot
inflate the file count — and the number of visited files is bounded by
the number of real file nodes of the tree.  `walkList` is a total
function of the finite tree (it recurses only into real subdirectories),
which is the embedding's form of termination on every finite directory
tree. -/
theorem C8_symlinks_never_traversed (l : List FsEntry) :
    walkList (eraseSymlinksList l) = walkList l ∧
    (walkList l).length ≤ fileCountList l :=
  ⟨walkList_eraseSymlinks l, walkList_length_le l⟩

/-! ### Lemmas for the percentage sum (C6) and the primary language (C7) -/

theorem sum_map_insertByBytesDesc (f : LanguageBreakdown → ℚ)
    (x : LanguageBreakdown) : ∀ l : List LanguageBreakdown,
    ((insertByBytesDesc x l).map f).sum = f x + (l.map f).sum := by
  intro l
  induction l with
  | nil => simp [insertByBytesDesc]
  | cons y ys ih =>
      unfold insertByBytesDesc
      split
      · simp
      · simp only [List.map_cons, List.sum_cons, ih]
        ring

theorem sum_map_sortAux (f : LanguageBreakdown → ℚ) :
    ∀ (l acc : List LanguageBreakdown),
    ((l.foldl (fun a x => insertByBytesDesc x a) acc).map f).sum
      = (acc.map f).sum + (l.map f).sum := by
  intro l
  induction l with
  | nil => intro acc; simp
  | cons x xs ih =>
      intro acc
      simp only [List.foldl_cons]
      rw [ih (insertByBytesDesc x acc), sum_map_insertByBytesDesc]
      simp only [List.map_cons, List.sum_cons]
      ring

/-- The percentage sum is invariant under the byte-descending sort. -/
theorem sum_map_sortByBytesDesc (f : LanguageBreakdown → ℚ)
    (l : List LanguageBreakdown) :
    ((sortByBytesDesc l).map f).sum = (l.map f).sum := by
  simpa using sum_map_sortAux f l []

theorem sum_map_div_total (T : ℚ) : ∀ l : List LangAgg,
    (l.map (fun e => ((e.bytes : ℚ) / T) * 100)).sum
      = (((l.map (·.bytes)).sum : ℕ) : ℚ) / T * 100 := by
  intro l
  induction l with
  | nil => simp
  | cons e es ih =>
      simp only [List.map_cons, List.sum_cons, ih]
      push_cast
      ring


theorem mem_map_language_bump {x lang : String} {sz : Nat} :
    ∀ acc, x ∈ (bump acc lang sz).map (·.language) →
      x = lang ∨ x ∈ acc.map (·.language) := by
  intro acc
  induction acc with
  | nil => simp [bump]
  | cons e es ih =>
      unfold bump
      split
      · rename_i heq
        simp only [List.map_cons, List.mem_cons]
        rintro (rfl | h)
        · exact .inl heq
        · exact .inr (.inr h)
      · simp only [List.map_cons, List.mem_cons]
        rintro (rfl | h)
        · exact .inr (.inl rfl)
        · rcases ih h with h' | h'
          · exact .inl h'
          · exact .inr (.inr h')

theorem lang_mem_bump (lang : String) (sz : Nat) :
    ∀ acc, lang ∈ (bump acc lang sz).map (·.language) := by
  intro acc
  induction acc with
  | nil => simp [bump]
  | cons e es ih =>
      unfold bump
      split
      · rename_i heq
        simp [heq]
      · simp only [List.map_cons, List.mem_cons]
        exact .inr ih

theorem mem_map_language_bump_mono {x : String} (lang : String) (sz : Nat) :
    ∀ acc, x ∈ acc.map (·.language) →
      x ∈ (bump acc lang sz).map (·.language) := by
  intro acc
  induction acc with
  | nil => simp
  | cons e es ih =>
      unfold bump
      split
      · simp only [List.map_cons]
        exact id
      · simp only [List.map_cons, List.mem_cons]
        rintro (rfl | h)
        · exact .inl rfl
        · exact .inr (ih h)

theorem mem_language_foldl_mono (files : List (String × Nat)) :
    ∀ (acc : List LangAgg) (x : String), x ∈ acc.map (·.language) →
      x ∈ (files.foldl aggStep acc).map (·.language) := by
  induction files with
  | nil => intro acc x h; exact h
  | cons q rest ih =>
      intro acc x h
      simp only [List.foldl_cons]
      refine ih _ x ?_
      unfold aggStep
      cases classifyFile q.1 with
      | none => exact h
      | some lang => exact mem_map_language_bump_mono lang q.2 acc h

theorem mem_language_aggregate_imp (files : List (String × Nat)) :
    ∀ (acc : List LangAgg) (x : String),
      x ∈ (files.foldl aggStep acc).map (·.language) →
      x ∈ acc.map (·.language) ∨ ∃ p ∈ files, classifyFile p.1 = some x := by
  induction files with
  | nil => intro acc x h; exact .inl h
  | cons p rest ih =>
      intro acc x h
      simp only [List.foldl_cons] at h
      rcases ih _ x h with h' | ⟨q, hq, hcq⟩
      · unfold aggStep at h'
        cases hc : classifyFile p.1 with
        | none => rw [hc] at h'; exact .inl h'
        | some lang =>
            rw [hc] at h'
            rcases mem_map_language_bump _ h' with rfl | hacc
            · exact .inr ⟨p, by simp, hc⟩
            · exact .inl hacc
      · exact .inr ⟨q, by simp [hq], hcq⟩

theorem classify_mem_aggregate (files : List (String × Nat)) :
    ∀ (acc : List LangAgg) (p : String × Nat) (lang : String),
      p ∈ files → classifyFile p.1 = some lang →
      lang ∈ (files.foldl aggStep acc).map (·.language) := by
  induction files with
  | nil => intro _ _ _ h; exact absurd h (List.not_mem_nil _)
  | cons q rest ih =>
      intro acc p lang hp hc
      simp only [List.foldl_cons]
      rcases List.mem_cons.mp hp with rfl | hp'
      · refine mem_language_foldl_mono rest _ lang ?_
        unfold aggStep
        rw [hc]
        exact lang_mem_bump lang p.2 acc
      · exact ih _ p lang hp' hc

/-- The non-excluded association list is empty exactly when no visited
file classifies to a non-excluded language. -/
theorem nonExcluded_eq_nil_iff (files : List (String × Nat)) :
    nonExcluded files = [] ↔ NoCountedCodeFile files := by
  unfold nonExcluded aggregate NoCountedCodeFile
  rw [List.filter_eq_nil_iff]
  constructor
  · intro h p hp lang hc
    by_contra hex
    have hmem := classify_mem_aggregate files [] p lang hp hc
    obtain ⟨e, he, hel⟩ := List.mem_map.mp hmem
    have := h e he
    simp only [decide_not, Bool.not_eq_true', decide_eq_false_iff_not,
      Decidable.not_not] at this
    exact hex (hel ▸ (by simpa using this))
  · intro h e he
    rcases mem_language_aggregate_imp files [] e.language
        (List.mem_map_of_mem _ he) with h' | ⟨p, hp, hc⟩
    · simp at h'
    · have := h p hp e.language hc
      simp only [decide_not, Bool.not_eq_true', decide_eq_false_iff_not,
        Decidable.not_not]
      simpa using this

/-- C6 (amended): the percentages over the non-excluded languages sum to
exactly 100 (so certainly within 0.01 of 100) whenever the *byte total*
over non-excluded languages is positive — not merely whenever a
non-excluded-language file exists, see the counterexample — and the
`languages` list is empty when no visited file classifies to a
non-excluded language. -/
theorem C6_percentage_sum (files : List (String × Nat)) :
    (0 < codeTotalBytes files → percentageSum files = 100) ∧
    (NoCountedCodeFile files → (scanLanguages files).languages = []) := by
  constructor
  · intro h
    have hT : ((codeTotalBytes files : ℕ) : ℚ) ≠ 0 := by
      exact_mod_cast Nat.pos_iff_ne_zero.mp h
    have h1 : percentageSum files
        = ((breakdowns files).map (·.percentage)).sum := by
      show ((sortByBytesDesc (breakdowns files)).map (·.percentage)).sum = _
      exact sum_map_sortByBytesDesc _ _
    rw [h1]
    unfold breakdowns
    rw [List.map_map]
    have h2 : ((·.percentage) ∘ fun e : LangAgg =>
        (⟨e.language, e.bytes,
          if 0 < codeTotalBytes files
            then ((e.bytes : ℚ) / (codeTotalBytes files : ℚ)) * 100 else 0,
          e.files⟩ : LanguageBreakdown))
        = fun e : LangAgg =>
            ((e.bytes : ℚ) / (codeTotalBytes files : ℚ)) * 100 := by
      funext e
      simp [h]
    rw [h2, sum_map_div_total]
    have h3 : ((nonExcluded files).map (·.bytes)).sum = codeTotalBytes files := rfl
    rw [h3, div_self hT, one_mul]
  · intro h
    have hne : nonExcluded files = [] := (nonExcluded_eq_nil_iff files).mpr h
    show languagesOf files = []
    unfold languagesOf breakdowns
    rw [hne]
    rfl

/-- Counterexample to C6 as stated: a single zero-byte JavaScript file is
a non-excluded-language file, yet every percentage is 0 and the sum is 0,
not within 0.01 of 100. -/
theorem C6_counterexample_zero_byte_file :
    classifyFile "a.js" = some "JavaScript" ∧
    "JavaScript" ∉ EXCLUDE_FROM_PERCENTAGES ∧
    (scanLanguages [("a.js", 0)]).languages = [⟨"JavaScript", 0, 0, 1⟩] ∧
    percentageSum [("a.js", 0)] = 0 ∧
    ¬ |percentageSum [("a.js", 0)] - 100| ≤ 1 / 100 := by
  have hmap : (scanLanguages [("a.js", 0)]).languages.map (·.percentage)
      = [(0 : ℚ)] := rfl
  have hsum : percentageSum [("a.js", 0)] = 0 := by
    unfold percentageSum
    rw [hmap]
    simp
  refine ⟨rfl, by decide, rfl, hsum, ?_⟩
  rw [hsum]
  norm_num

/-- Witness for C6 at the concrete scans `[("a.js", 5)]` (positive byte
total) and `[("x.json", 3)]` (only an excluded-language file). -/
theorem C6_witness :
    (0 < codeTotalBytes [("a.js", 5)] ∧ percentageSum [("a.js", 5)] = 100) ∧
    (NoCountedCodeFile [("x.json", 3)] ∧
      (scanLanguages [("x.json", 3)]).languages = []) := by
  have hn : NoCountedCodeFile [("x.json", 3)] := by
    intro p hp lang hc
    simp only [List.mem_singleton] at hp
    subst hp
    have hcl : classifyFile ("x.json", 3).1 = some "JSON" := rfl
    rw [hcl] at hc
    injection hc with h
    subst h
    decide
  exact ⟨⟨by decide, (C6_percentage_sum _).1 (by decide)⟩,
    hn, (C6_percentage_sum _).2 hn⟩

/-! ### The primary language (C7) -/


theorem head_insertByBytesDesc (x : LanguageBreakdown)
    (l : List LanguageBreakdown) :
    (insertByBytesDesc x l).head? = pickFirstMax l.head? x := by
  cases l with
  | nil => rfl
  | cons y ys =>
      by_cases h : y.bytes < x.bytes
      · simp [insertByBytesDesc, pickFirstMax, h]
      · simp [insertByBytesDesc, pickFirstMax, h]

theorem head_sortAux : ∀ (l acc : List LanguageBreakdown),
    ((l.foldl (fun a x => insertByBytesDesc x a) acc).head?)
      = l.foldl pickFirstMax acc.head? := by
  intro l
  induction l with
  | nil => intro acc; rfl
  | cons x xs ih =>
      intro acc
      simp only [List.foldl_cons]
      rw [ih (insertByBytesDesc x acc), head_insertByBytesDesc]

/-- The head of the stable byte-descending sort is exactly the
first-encountered maximal entry. -/
theorem head_sortByBytesDesc (l : List LanguageBreakdown) :
    (sortByBytesDesc l).head? = specFirstEncounteredMax l :=
  head_sortAux l []

theorem isFirstMax_extend_keep {seen : List LanguageBreakdown}
    {c x : LanguageBreakdown} (h : IsFirstMax seen c)
    (hx : x.bytes ≤ c.bytes) : IsFirstMax (seen ++ [x]) c := by
  obtain ⟨⟨pre, post, rfl, hpre⟩, hmax⟩ := h
  refine ⟨⟨pre, post ++ [x], by simp, hpre⟩, ?_⟩
  intro e he
  rcases List.mem_append.mp he with he | he
  · exact hmax e he
  · simp only [List.mem_singleton] at he
    subst he
    exact hx

theorem isFirstMax_extend_new {seen : List LanguageBreakdown}
    {c x : LanguageBreakdown} (h : IsFirstMax seen c)
    (hx : c.bytes < x.bytes) : IsFirstMax (seen ++ [x]) x := by
  obtain ⟨⟨pre, post, rfl, hpre⟩, hmax⟩ := h
  refine ⟨⟨pre ++ c :: post, [], by simp, ?_⟩, ?_⟩
  · intro e he
    exact lt_of_le_of_lt (hmax e he) hx
  · intro e he
    rcases List.mem_append.mp he with he | he
    · exact le_of_lt (lt_of_le_of_lt (hmax e he) hx)
    · simp only [List.mem_singleton] at he
      subst he
      exact le_refl _

theorem foldl_pick_aux : ∀ (xs seen : List LanguageBreakdown)
    (c : LanguageBreakdown), IsFirstMax seen c →
    ∃ d, xs.foldl pickFirstMax (some c) = some d ∧
      IsFirstMax (seen ++ xs) d := by
  intro xs
  induction xs with
  | nil =>
      intro seen c h
      exact ⟨c, rfl, by simpa using h⟩
  | cons x xs ih =>
      intro seen c h
      simp only [List.foldl_cons]
      by_cases hx : c.bytes < x.bytes
      · obtain ⟨d, hd, hfm⟩ := ih (seen ++ [x]) x (isFirstMax_extend_new h hx)
        refine ⟨d, ?_, by simpa using hfm⟩
        simpa [pickFirstMax, hx] using hd
      · obtain ⟨d, hd, hfm⟩ :=
          ih (seen ++ [x]) c (isFirstMax_extend_keep h (le_of_not_lt hx))
        refine ⟨d, ?_, by simpa using hfm⟩
        simpa [pickFirstMax, hx] using hd

theorem specFirstEncounteredMax_some {l : List LanguageBreakdown}
    {b : LanguageBreakdown} (h : specFirstEncounteredMax l = some b) :
    IsFirstMax l b := by
  cases l with
  | nil => exact absurd h (by simp [specFirstEncounteredMax])
  | cons x xs =>
      have hfm : IsFirstMax [x] x := ⟨⟨[], [], rfl, by simp⟩, by simp⟩
      obtain ⟨d, hd, hfm'⟩ := foldl_pick_aux xs [x] x hfm
      have hl : specFirstEncounteredMax (x :: xs)
          = xs.foldl pickFirstMax (some x) := rfl
      rw [hl, hd] at h
      injection h with h
      subst h
      simpa using hfm'

theorem specFirstEncounteredMax_eq_none {l : List LanguageBreakdown} :
    specFirstEncounteredMax l = none ↔ l = [] := by
  cases l with
  | nil => simp [specFirstEncounteredMax]
  | cons x xs =>
      have hfm : IsFirstMax [x] x := ⟨⟨[], [], rfl, by simp⟩, by simp⟩
      obtain ⟨d, hd, _⟩ := foldl_pick_aux xs [x] x hfm
      have hl : specFirstEncounteredMax (x :: xs)
          = xs.foldl pickFirstMax (some x) := rfl
      rw [hl, hd]
      simp

/-- C7: `primaryLanguage` is the head of the stable byte-descending sort,
i.e. the first-encountered non-excluded language of maximal byte count
(no earlier entry reaches its byte count, no entry exceeds it), and it is
the sentinel `"Unknown"` exactly when no visited file classified to a
non-excluded language. -/
theorem C7_primary_language (files : List (String × Nat)) :
    (breakdowns files = [] → primaryLanguageOf files = "Unknown") ∧
    (∀ b, specFirstEncounteredMax (breakdowns files) = some b →
        primaryLanguageOf files = b.language ∧
        IsFirstMax (breakdowns files) b) ∧
    (breakdowns files = [] ↔ NoCountedCodeFile files) := by
  have hhead : (languagesOf files).head?
      = specFirstEncounteredMax (breakdowns files) := head_sortByBytesDesc _
  refine ⟨?_, ?_, ?_⟩
  · intro h
    unfold primaryLanguageOf
    rw [hhead, h]
    rfl
  · intro b hb
    refine ⟨?_, specFirstEncounteredMax_some hb⟩
    unfold primaryLanguageOf
    rw [hhead, hb]
  · constructor
    · intro h
      refine (nonExcluded_eq_nil_iff files).mp ?_
      unfold breakdowns at h
      exact List.map_eq_nil_iff.mp h
    · intro h
      unfold breakdowns
      rw [(nonExcluded_eq_nil_iff files).mpr h]
      rfl

/-- Witness for C7: an excluded-only scan yields `"Unknown"`; a two-file
tie (1 byte of JavaScript first, 1 byte of TypeScript second) resolves to
the first-encountered JavaScript entry. -/
theorem C7_witness :
    primaryLanguageOf [("x.png", 5)] = "Unknown" ∧
    (primaryLanguageOf [("a.js", 1), ("b.ts", 1)]
        = (⟨"JavaScript", 1, ((1:ℕ):ℚ)/((2:ℕ):ℚ)*100, 1⟩ :
            LanguageBreakdown).language ∧
      IsFirstMax (breakdowns [("a.js", 1), ("b.ts", 1)])
        ⟨"JavaScript", 1, ((1:ℕ):ℚ)/((2:ℕ):ℚ)*100, 1⟩) :=
  ⟨(C7_primary_language [("x.png", 5)]).1 rfl,
   (C7_primary_language [("a.js", 1), ("b.ts", 1)]).2.1 _ rfl⟩

/-! ### Slot-filling priority (C4) -/


theorem ne_of_guarded {s : String} (h : s ∈ guardedSlots) {k : String}
    (hk : k ∉ guardedSlots) : s ≠ k := fun e => hk (e ▸ h)

theorem setSlot_pres {st : SlotState} {s v : String} (k v' : String)
    (hne : s ≠ k) (h : st s = some v) : setSlot st k v' s = some v := by
  unfold setSlot
  rw [if_neg hne]
  exact h

theorem fillIfAbsent_pres {st : SlotState} {s v : String} (k v' : String)
    (h : st s = some v) : fillIfAbsent st k v' s = some v := by
  unfold fillIfAbsent
  split
  · exact h
  · rename_i hnone
    unfold setSlot
    by_cases hsk : s = k
    · subst hsk
      rw [h] at hnone
      simp at hnone
    · rw [if_neg hsk]
      exact h

theorem setOpt_pres {st : SlotState} {s v : String} (k : String)
    (w : Option String) (hne : s ≠ k) (h : st s = some v) :
    setOpt st k w s = some v := by
  cases w
  · exact h
  · exact setSlot_pres k _ hne h

theorem fillOpt_pres {st : SlotState} {s v : String} (k : String)
    (w : Option String) (h : st s = some v) : fillOpt st k w s = some v := by
  cases w
  · exact h
  · exact fillIfAbsent_pres k _ h

theorem scannerStage_pres {st : SlotState} {s v : String} (scan : ScanIn)
    (hs : s ∈ guardedSlots) (h : st s = some v) :
    scannerStage scan st s = some v := by
  unfold scannerStage
  split
  · exact setSlot_pres _ _ (ne_of_guarded hs (by decide)) h
  · exact h

theorem frameworkStage_pres {st : SlotState} {s v : String}
    (fw : Option FwIn) (hs : s ∈ guardedSlots) (h : st s = some v) :
    frameworkStage fw st s = some v := by
  unfold frameworkStage
  cases fw with
  | none => exact h
  | some f =>
      dsimp only
      split
      · exact h
      · exact setOpt_pres _ _ (ne_of_guarded hs (by decide))
          (fillOpt_pres _ _ (fillIfAbsent_pres _ _ h))

theorem aiStage_pres {st : SlotState} {s v : String} (ai : Option AiIn)
    (hs : s ∈ guardedSlots) (h : st s = some v) :
    aiStage ai st s = some v := by
  cases ai with
  | none => exact h
  | some a =>
      exact setOpt_pres _ _ (ne_of_guarded hs (by decide))
        (fillOpt_pres _ _ (fillOpt_pres _ _ (fillOpt_pres _ _
          (fillOpt_pres _ _ (fillOpt_pres _ _ (fillOpt_pres _ _
            (fillOpt_pres _ _ h)))))))

theorem readmeLocalStage_pres {st : SlotState} {s v : String}
    (scan : ScanIn) (hs : s ∈ guardedSlots) (h : st s = some v) :
    readmeLocalStage scan st s = some v := by
  unfold readmeLocalStage
  split
  · exact fillOpt_pres _ _ (fillOpt_pres _ _ (fillOpt_pres _ _
      (fillOpt_pres _ _ (fillOpt_pres _ _ (fillOpt_pres _ _
        (fillOpt_pres _ _ (fillOpt_pres _ _ h)))))))
  · exact h

theorem licenseStage_pres {st : SlotState} {s v : String} (scan : ScanIn)
    (hs : s ∈ guardedSlots) (h : st s = some v) :
    licenseStage scan st s = some v := by
  unfold licenseStage
  split
  · exact setOpt_pres _ _ (ne_of_guarded hs (by decide)) h
  · exact h

theorem cicdStage_pres {st : SlotState} {s v : String} (scan : ScanIn)
    (hs : s ∈ guardedSlots) (h : st s = some v) :
    cicdStage scan st s = some v := by
  unfold cicdStage
  split
  · exact setOpt_pres _ _ (ne_of_guarded hs (by decide)) h
  · exact h

theorem testsStage_pres {st : SlotState} {s v : String} (scan : ScanIn)
    (hs : s ∈ guardedSlots) (h : st s = some v) :
    testsStage scan st s = some v := by
  unfold testsStage
  split
  · exact setSlot_pres _ _ (ne_of_guarded hs (by decide)) h
  · exact h

theorem dockerStage_pres {st : SlotState} {s v : String} (scan : ScanIn)
    (hs : s ∈ guardedSlots) (h : st s = some v) :
    dockerStage scan st s = some v := by
  unfold dockerStage
  split
  · exact fillIfAbsent_pres _ _ h
  · exact h

theorem buildToolStage_pres {st : SlotState} {s v : String} (scan : ScanIn)
    (hs : s ∈ guardedSlots) (h : st s = some v) :
    buildToolStage scan st s = some v := by
  unfold buildToolStage
  repeat' split
  all_goals
    first
    | exact h
    | exact setSlot_pres _ _ (ne_of_guarded hs (by decide)) h

theorem frameworkStage2_pres {st : SlotState} {s v : String}
    (fw : Option FwIn) (hs : s ∈ guardedSlots) (h : st s = some v) :
    frameworkStage2 fw st s = some v := by
  cases fw with
  | none => exact h
  | some f => exact fillIfAbsent_pres _ _ h

theorem fabStage_pres {st : SlotState} {s v : String} (ctx : FabCtx)
    (hs : s ∈ guardedSlots) (h : st s = some v) :
    fabStage ctx st s = some v := by
  unfold fabStage
  refine fillOpt_pres _ _ (fillOpt_pres _ _ (fillOpt_pres _ _
    (fillOpt_pres _ _ (fillOpt_pres _ _ (fillOpt_pres _ _ ?_)))))
  refine setOpt_pres _ _ (ne_of_guarded hs (by decide)) ?_
  refine setOpt_pres _ _ (ne_of_guarded hs (by decide)) ?_
  refine setOpt_pres _ _ (ne_of_guarded hs (by decide)) ?_
  refine setOpt_pres _ _ (ne_of_guarded hs (by decide)) ?_
  refine setOpt_pres _ _ (ne_of_guarded hs (by decide)) ?_
  refine setOpt_pres _ _ (ne_of_guarded hs (by decide)) ?_
  refine setOpt_pres _ _ (ne_of_guarded hs (by decide)) ?_
  refine setOpt_pres _ _ (ne_of_guarded hs (by decide)) ?_
  refine setOpt_pres _ _ (ne_of_guarded hs (by decide)) ?_
  refine setOpt_pres _ _ (ne_of_guarded hs (by decide)) ?_
  refine setOpt_pres _ _ (ne_of_guarded hs (by decide)) ?_
  refine setOpt_pres _ _ (ne_of_guarded hs (by decide)) ?_
  exact fillOpt_pres _ _ (fillOpt_pres _ _ h)

theorem relentlessStage_pres {st : SlotState} {s v : String}
    (hc : Option HumanCtxIn) (hs : s ∈ guardedSlots) (h : st s = some v) :
    relentlessStage hc st s = some v := by
  cases hc with
  | none => exact h
  | some hctx =>
      exact fillOpt_pres _ _ (fillOpt_pres _ _ (fillOpt_pres _ _
        (fillOpt_pres _ _ (fillOpt_pres _ _ (fillOpt_pres _ _ h)))))

theorem rustCliStage_pres {st : SlotState} {s v : String} (g : GenInputs)
    (hs : s ∈ guardedSlots) (h : st s = some v) :
    rustCliStage g st s = some v := by
  unfold rustCliStage
  split
  · refine fillOpt_pres _ _ (fillOpt_pres _ _ ?_)
    refine setSlot_pres _ _ (ne_of_guarded hs (by decide)) ?_
    refine setSlot_pres _ _ (ne_of_guarded hs (by decide)) ?_
    refine setSlot_pres _ _ (ne_of_guarded hs (by decide)) ?_
    refine setSlot_pres _ _ (ne_of_guarded hs (by decide)) ?_
    refine setSlot_pres _ _ (ne_of_guarded hs (by decide)) ?_
    refine setSlot_pres _ _ (ne_of_guarded hs (by decide)) ?_
    refine setSlot_pres _ _ (ne_of_guarded hs (by decide)) ?_
    refine setSlot_pres _ _ (ne_of_guarded hs (by decide)) ?_
    refine setSlot_pres _ _ (ne_of_guarded hs (by decide)) ?_
    refine setSlot_pres _ _ (ne_of_guarded hs (by decide)) ?_
    refine setSlot_pres _ _ (ne_of_guarded hs (by decide)) ?_
    exact setSlot_pres _ _ (ne_of_guarded hs (by decide)) h
  · exact h

theorem nodeCliCssStage_pres {st : SlotState} {s v : String} (deps : DepsIn)
    (hs : s ∈ guardedSlots) (h : st s = some v) :
    nodeCliCssStage deps st s = some v := by
  unfold nodeCliCssStage
  repeat' split
  all_goals
    first
    | exact h
    | exact setSlot_pres _ _ (ne_of_guarded hs (by decide)) h

theorem nodeCliUiStage_pres {st : SlotState} {s v : String} (deps : DepsIn)
    (hs : s ∈ guardedSlots) (h : st s = some v) :
    nodeCliUiStage deps st s = some v := by
  unfold nodeCliUiStage
  repeat' split
  all_goals
    first
    | exact h
    | exact setSlot_pres _ _ (ne_of_guarded hs (by decide)) h

theorem nodeCliFwStage_pres {st : SlotState} {s v : String} (deps : DepsIn)
    (hs : s ∈ guardedSlots) (h : st s = some v) :
    nodeCliFwStage deps st s = some v := by
  unfold nodeCliFwStage
  repeat' split
  all_goals
    first
    | exact h
    | exact setSlot_pres _ _ (ne_of_guarded hs (by decide)) h

theorem nodeCliRuntimeStage_pres {st : SlotState} {s v : String}
    (g : GenInputs) (hs : s ∈ guardedSlots) (h : st s = some v) :
    nodeCliRuntimeStage g st s = some v := by
  unfold nodeCliRuntimeStage
  split
  · exact setSlot_pres _ _ (ne_of_guarded hs (by decide))
      (setSlot_pres _ _ (ne_of_guarded hs (by decide)) h)
  · cases g.deps.enginesNode with
    | some ver => exact setSlot_pres _ _ (ne_of_guarded hs (by decide)) h
    | none => exact setSlot_pres _ _ (ne_of_guarded hs (by decide)) h

theorem nodeCliBuildStage_pres {st : SlotState} {s v : String}
    (deps : DepsIn) (hs : s ∈ guardedSlots) (h : st s = some v) :
    nodeCliBuildStage deps st s = some v := by
  unfold nodeCliBuildStage
  repeat' split
  all_goals
    first
    | exact h
    | exact setSlot_pres _ _ (ne_of_guarded hs (by decide)) h

theorem nodeCliTestStage_pres {st : SlotState} {s v : String}
    (deps : DepsIn) (hs : s ∈ guardedSlots) (h : st s = some v) :
    nodeCliTestStage deps st s = some v := by
  unfold nodeCliTestStage
  repeat' split
  all_goals
    first
    | exact h
    | exact setSlot_pres _ _ (ne_of_guarded hs (by decide)) h

theorem nodeCliCicdStage_pres {st : SlotState} {s v : String}
    (g : GenInputs) (hs : s ∈ guardedSlots) (h : st s = some v) :
    nodeCliCicdStage g st s = some v := by
  unfold nodeCliCicdStage
  split
  · exact setSlot_pres _ _ (ne_of_guarded hs (by decide)) h
  · exact h

theorem nodeCliStage_pres {st : SlotState} {s v : String} (g : GenInputs)
    (hs : s ∈ guardedSlots) (h : st s = some v) :
    nodeCliStage g st s = some v := by
  unfold nodeCliStage
  split
  · exact nodeCliCicdStage_pres _ hs (nodeCliTestStage_pres _ hs
      (nodeCliBuildStage_pres _ hs (nodeCliRuntimeStage_pres _ hs
        (nodeCliFwStage_pres _ hs (nodeCliUiStage_pres _ hs
          (nodeCliCssStage_pres _ hs
            (setSlot_pres _ _ (ne_of_guarded hs (by decide))
              (setSlot_pres _ _ (ne_of_guarded hs (by decide))
                (setSlot_pres _ _ (ne_of_guarded hs (by decide))
                  (setSlot_pres _ _ (ne_of_guarded hs (by decide)) h))))))))))
  · exact h

theorem bunStage_pres {st : SlotState} {s v : String} (g : GenInputs)
    (hs : s ∈ guardedSlots) (h : st s = some v) :
    bunStage g st s = some v := by
  unfold bunStage
  split
  · exact setSlot_pres _ _ (ne_of_guarded hs (by decide))
      (setSlot_pres _ _ (ne_of_guarded hs (by decide)) h)
  · exact h

theorem pkgStage_pres {st : SlotState} {s v : String} (g : GenInputs)
    (hs : s ∈ guardedSlots) (h : st s = some v) :
    pkgStage g st s = some v :=
  fillOpt_pres _ _ (fillOpt_pres _ _ h)

theorem pyStage_pres {st : SlotState} {s v : String} (g : GenInputs)
    (hs : s ∈ guardedSlots) (h : st s = some v) :
    pyStage g st s = some v :=
  fillOpt_pres _ _ (fillOpt_pres _ _ h)

theorem readmeDataStage_pres {st : SlotState} {s v : String}
    (scan : ScanIn) (hs : s ∈ guardedSlots) (h : st s = some v) :
    readmeDataStage scan st s = some v := by
  unfold readmeDataStage
  split
  · exact fillOpt_pres _ _ (fillOpt_pres _ _ (fillOpt_pres _ _ h))
  · exact h

/-- C4 (amended): first-non-empty-wins holds for `project_name`,
`project_goal` and the six human slots — once any source has filled one
of these, no later source overwrites it — but *not* for every slot in the
map (see the counterexample: the scanner unconditionally overwrites
`main_language`; FAB-FORMATS context and the CLI branches likewise
overwrite technical slots). -/
theorem C4_guarded_slots_never_overwritten (g : GenInputs) (st : SlotState)
    (s v : String) (hs : s ∈ guardedSlots) (h : st s = some v) :
    fillAfterQuick g st s = some v := by
  unfold fillAfterQuick
  exact readmeDataStage_pres _ hs (pyStage_pres _ hs (pkgStage_pres _ hs
    (bunStage_pres _ hs (nodeCliStage_pres _ hs (rustCliStage_pres _ hs
      (relentlessStage_pres _ hs (fabStage_pres _ hs
        (frameworkStage2_pres _ hs (buildToolStage_pres _ hs
          (dockerStage_pres _ hs (testsStage_pres _ hs
            (cicdStage_pres _ hs (licenseStage_pres _ hs
              (readmeLocalStage_pres _ hs (aiStage_pres _ hs
                (frameworkStage_pres _ hs
                  (scannerStage_pres _ hs h)))))))))))))))))


/-- Counterexample to C4 as stated: quick mode (the highest-priority
source) fills `main_language` with `"Foo"`, and the later scanner source
overwrites it with `"JavaScript"`. -/
theorem C4_counterexample_main_language_overwritten :
    quickModeStage o0 emptySlots "main_language" = some "Foo" ∧
    contextSlotsFilled o0 g0 "main_language" = some "JavaScript" ∧
    ("Foo" : String) ≠ "JavaScript" :=
  ⟨rfl, rfl, by decide⟩

/-- Witness for C4 (amended) at the concrete slot `"who"`. -/
theorem C4_witness :
    "who" ∈ guardedSlots ∧
    setSlot emptySlots "who" "devs" "who" = some "devs" ∧
    fillAfterQuick g0 (setSlot emptySlots "who" "devs") "who" = some "devs" :=
  ⟨by decide, rfl,
    C4_guarded_slots_never_overwritten g0 _ "who" "devs" (by decide) rfl⟩

/-! ### Error propagation (C9) and the AI README path (C10) -/

/-- C9: `generateFafFromProject` fails if and only if the `projectRoot`
precondition is violated (absent/non-string, modelled `none`, or the
falsy empty string).  For every other combination of collaborator
outcomes — each `Except.error` models a thrown detector, reader, or AI
call — every failure is caught where the source catches it and the
pipeline still returns a scored result. -/
theorem C9_error_iff_invalid_root (o : GenOptions) (w : ExtWorld) :
    ((generateFafFromProject o w).isOk = true
      ↔ (o.projectRoot ≠ none ∧ o.projectRoot ≠ some "")) ∧
    ((generateFafFromProject o w).isOk = false
      → generateFafFromProject o w = .error "Invalid projectRoot") := by
  cases hr : o.projectRoot with
  | none =>
      have he : generateFafFromProject o w = .error "Invalid projectRoot" := by
        unfold generateFafFromProject
        rw [hr]
      rw [he]
      refine ⟨⟨fun h => by simp [Except.isOk, Except.toBool] at h,
        fun h => absurd rfl h.1⟩, fun _ => rfl⟩
  | some root =>
      by_cases hroot : root = ""
      · subst hroot
        have he : generateFafFromProject o w = .error "Invalid projectRoot" := by
          unfold generateFafFromProject
          rw [hr]
          rfl
        rw [he]
        refine ⟨⟨fun h => by simp [Except.isOk, Except.toBool] at h,
          fun h => absurd rfl h.2⟩, fun _ => rfl⟩
      · have hok : (generateFafFromProject o w).isOk = true := by
          unfold generateFafFromProject
          rw [hr]
          dsimp only
          rw [if_neg hroot]
          rfl
        constructor
        · refine ⟨fun _ => ⟨by simp, fun e => ?_⟩, fun _ => hok⟩
          injection e with e'
          exact hroot e'
        · intro hfalse
          rw [hok] at hfalse
          cases hfalse

/-- C10: AI enrichment reads only the literal `'README.md'`.  Whenever
`findReadme` located the README under any *other* candidate name, the
generator's read of `'README.md'` fails (that exact name is absent — the
candidate list is tried in order, so `'README.md'` itself was
inaccessible), the AI result stays `null`, and the AI fill stage leaves
every slot untouched — even though the scan reports the README as
existing. -/
theorem C10_ai_reads_only_README_md (fs : RootFs)
    (analyze : String → Option AiIn) (c : String)
    (hfind : findReadme fs = some c) (hne : c ≠ "README.md") :
    readmeExists fs = true ∧
    fs "README.md" = none ∧
    aiReadmeAnalysis fs analyze = none ∧
    (∀ st : SlotState, aiStage (aiReadmeAnalysis fs analyze) st = st) := by
  have hnone : fs "README.md" = none := by
    cases hR : fs "README.md" with
    | none => rfl
    | some content =>
        exfalso
        have : findReadme fs = some "README.md" := by
          unfold findReadme README_CANDIDATES
          rw [List.find?_cons_of_pos _ (by simp [hR])]
        rw [this] at hfind
        injection hfind with h
        exact hne h.symm
  have hex : readmeExists fs = true := by
    unfold readmeExists
    rw [hfind]
    rfl
  have hai : aiReadmeAnalysis fs analyze = none := by
    unfold aiReadmeAnalysis
    rw [hex, hnone]
    simp
  exact ⟨hex, hnone, hai, fun st => by rw [hai]; rfl⟩


/-- Witness for C10 at the concrete root `fsLowercaseReadme`. -/
theorem C10_witness :
    findReadme fsLowercaseReadme = some "readme.md" ∧
    ("readme.md" : String) ≠ "README.md" ∧
    (readmeExists fsLowercaseReadme = true ∧
     fsLowercaseReadme "README.md" = none ∧
     aiReadmeAnalysis fsLowercaseReadme (fun _ => none) = none ∧
     (∀ st : SlotState,
        aiStage (aiReadmeAnalysis fsLowercaseReadme (fun _ => none)) st = st)) :=
  ⟨rfl, by decide,
   C10_ai_reads_only_README_md fsLowercaseReadme (fun _ => none)
     "readme.md" rfl (by decide)⟩

end FafCli
